import Mathlib

/-!
Verification development for the orbiq_system_monitor daemon.

The Rust sources are shallowly embedded as Lean definitions:
pure payload-construction functions (`src/homeassistant.rs`,
`src/system_sensor.rs`, `src/config.rs`) become pure Lean functions, and
the orchestration loop of `publish_task` (`src/main.rs`) becomes a
sequential step function on an explicit state, emitting a trace of publish
events whose success is governed by an outcome oracle (one Boolean per
publish call, indexed by a running publish counter).  Floating-point sensor
values are embedded as exact rationals; every concrete value used in a
theorem below is exactly representable, so the idealisation is faithful at
those points.
-/

namespace Orbiq

/-! ## JSON documents (model of serde_json values built with the json! macro) -/

mutual
inductive Json where
  | str (s : String) : Json
  | num (q : ℚ) : Json
  | jbool (b : Bool) : Json
  | null : Json
  | arr (xs : JsonList) : Json
  | obj (fs : JsonFields) : Json
  deriving DecidableEq

inductive JsonList where
  | nil : JsonList
  | cons (hd : Json) (tl : JsonList) : JsonList
  deriving DecidableEq

inductive JsonFields where
  | nil : JsonFields
  | cons (key : String) (val : Json) (tl : JsonFields) : JsonFields
  deriving DecidableEq
end

/-- Build a field list from a Lean list of pairs. -/
def JsonFields.ofList : List (String × Json) → JsonFields
  | [] => .nil
  | (k, v) :: tl => .cons k v (JsonFields.ofList tl)

/-- Object construction helper mirroring the json! object literal. -/
def Json.mkObj (fs : List (String × Json)) : Json :=
  .obj (JsonFields.ofList fs)

/-- Array-of-strings helper, mirroring serialization of a Vec of strings. -/
def Json.strArr : List String → JsonList
  | [] => .nil
  | s :: tl => .cons (.str s) (Json.strArr tl)

/-- Look a key up in a field list (first match). -/
def JsonFields.lookup : JsonFields → String → Option Json
  | .nil, _ => none
  | .cons k v tl, key => if k == key then some v else tl.lookup key

/-- Look a key up at the top level of a JSON object. -/
def Json.lookup : Json → String → Option Json
  | .obj fs, key => fs.lookup key
  | _, _ => none

/-- Decimal rendering of a rational whose denominator divides a power of
ten, used to serialize JSON numbers; values outside that range fall back to
an explicit fraction marker (never hit by the documents built here). -/
def renderNum (q : ℚ) : String :=
  if q.den = 1 then toString q.num ++ ".0"
  else
    match (List.range 64).find? (fun k => (q * (10 : ℚ) ^ k).den = 1) with
    | some k =>
        let m := (q * (10 : ℚ) ^ k).num
        let sgn := if m < 0 then "-" else ""
        let digs := toString m.natAbs
        let digs :=
          if digs.length ≤ k then
            String.mk (List.replicate (k + 1 - digs.length) '0') ++ digs
          else digs
        sgn ++ digs.take (digs.length - k) ++ "." ++ digs.drop (digs.length - k)
    | none => toString q.num ++ "div" ++ toString q.den

mutual
/-- Compact serialization of a JSON document (model of Value::to_string). -/
def Json.render : Json → String
  | .str s => "\"" ++ s ++ "\""
  | .num q => renderNum q
  | .jbool b => if b then "true" else "false"
  | .null => "null"
  | .arr xs => "[" ++ JsonList.render xs ++ "]"
  | .obj fs => "\x7b" ++ JsonFields.render fs ++ "\x7d"

def JsonList.render : JsonList → String
  | .nil => ""
  | .cons hd .nil => Json.render hd
  | .cons hd (.cons h2 tl) => Json.render hd ++ "," ++ JsonList.render (.cons h2 tl)

def JsonFields.render : JsonFields → String
  | .nil => ""
  | .cons k v .nil => "\"" ++ k ++ "\":" ++ Json.render v
  | .cons k v (.cons k2 v2 tl) =>
      "\"" ++ k ++ "\":" ++ Json.render v ++ "," ++ JsonFields.render (.cons k2 v2 tl)
end

/-! ## MQTT payload value objects (src/mqtt_client.rs) -/

/-- Body of a publish: either a JSON document (discovery/state payloads,
serialized with `Json.render`) or a raw string (availability payloads,
sent as the literal bytes `online` / `offline`). -/
inductive MqttBody where
  | jsonB (j : Json) : MqttBody
  | rawB (s : String) : MqttBody
  deriving DecidableEq

/-- The bytes actually put on the wire for a body. -/
def MqttBody.serialize : MqttBody → String
  | .jsonB j => j.render
  | .rawB s => s

/-- The last character of a string, if any (used to separate topic
suffixes). -/
def lastCh (s : String) : Option Char := s.data.reverse.head?

/-- MqttPayload from src/mqtt_client.rs; the source stores the body as an
already-serialized string, modeled here as `body.serialize`. -/
structure MqttPayload where
  topic : String
  body : MqttBody
  retain : Bool
  deriving DecidableEq

/-- Top-level key lookup in a payload's JSON body (none for raw bodies). -/
def MqttPayload.bodyLookup (p : MqttPayload) (key : String) : Option Json :=
  match p.body with
  | .jsonB j => j.lookup key
  | .rawB _ => none

/-- MqttSensorTopics from src/mqtt_client.rs. -/
structure MqttSensorTopics where
  name : String
  state : MqttPayload
  discovery : MqttPayload
  availability : MqttPayload

/-! ## Sensors (src/temperature_sensor.rs, src/system_sensor.rs) -/

/-- TemperatureSensor from src/temperature_sensor.rs (f32 value embedded
as an exact rational). -/
structure TemperatureSensor where
  name : String
  temperature : ℚ
  file_path : String
  deriving DecidableEq

/-- SystemSensorType from src/system_sensor.rs (the compiled module; it has
no Fan or Temperature variant). -/
inductive SystemSensorType where
  | CpuUsage | MemoryUsage | DiskUsage
  | MemoryUsed | MemoryTotal | DiskUsed | DiskTotal
  deriving DecidableEq

/-- SystemSensorType::icon from src/system_sensor.rs. -/
def SystemSensorType.icon : SystemSensorType → String
  | .CpuUsage => "mdi:cpu-64-bit"
  | .MemoryUsage | .MemoryUsed | .MemoryTotal => "mdi:memory"
  | .DiskUsage | .DiskUsed | .DiskTotal => "mdi:harddisk"

/-- SystemSensor from src/system_sensor.rs (f64 value embedded as an exact
rational). -/
structure SystemSensor where
  name : String
  value : ℚ
  unit : String
  sensor_type : SystemSensorType
  deriving DecidableEq

/-- The pattern list is a prefix of the list. -/
def subAt : List Char → List Char → Bool
  | _, [] => true
  | [], _ :: _ => false
  | c :: cs, p :: ps => c == p && subAt cs ps

/-- The pattern list occurs somewhere in the list. -/
def hasSub : List Char → List Char → Bool
  | [], pat => pat.isEmpty
  | c :: cs, pat => subAt (c :: cs) pat || hasSub cs pat

/-- Rust's str::contains: the pattern occurs as a contiguous substring. -/
def strContains (s pat : String) : Bool := hasSub s.data pat.data

/-- The cpu_usage sensor built by collect_system_stats in
src/system_sensor.rs from a raw global CPU usage reading; the value is
pushed through unchanged (only an f32-to-f64 cast, which is exact). -/
def cpuUsageSensor (cpu_usage : ℚ) : SystemSensor :=
  { name := "cpu_usage", value := cpu_usage, unit := "%",
    sensor_type := .CpuUsage }

/-- The memory_used sensor built by collect_system_stats in
src/system_sensor.rs from a raw used-memory byte count: the byte count is
divided by 1024^3 to convert to GB (exact in f64 whenever the result is
representable, as it is at every input used below). -/
def memoryUsedSensor (used_memory : ℕ) : SystemSensor :=
  { name := "memory_used",
    value := (used_memory : ℚ) / (1024 * 1024 * 1024),
    unit := "GB", sensor_type := .MemoryUsed }

/-! ## Configuration (src/config.rs) -/

/-- MqttConfig from src/config.rs. -/
structure MqttConfig where
  broker : String
  port : ℕ
  username : Option String
  password : Option String
  client_id : String
  keep_alive_secs : ℕ
  deriving DecidableEq

/-- DeviceConfig from src/config.rs. -/
structure DeviceConfig where
  name : String
  model : String
  manufacturer : String
  sw_version : Option String
  hw_version : Option String
  deriving DecidableEq

/-- DaemonConfig from src/config.rs. -/
structure DaemonConfig where
  mqtt : MqttConfig
  device : DeviceConfig
  update_interval_secs : ℕ
  discovery_delay_ms : ℕ
  deriving DecidableEq

/-- The CARGO_PKG_VERSION compile-time constant baked into the binary. -/
def cargoPkgVersion : String := "0.1.0"

/-- Default for MqttConfig (src/config.rs impl Default). -/
def MqttConfig.default : MqttConfig :=
  { broker := "localhost", port := 1883, username := none, password := none,
    client_id := "orbiq-default", keep_alive_secs := 30 }

/-- Default for DeviceConfig (src/config.rs impl Default). -/
def DeviceConfig.default : DeviceConfig :=
  { name := "system-monitor", model := "OrbIQ System Monitor",
    manufacturer := "OrbIQ", sw_version := some cargoPkgVersion,
    hw_version := some "1.0" }

/-- Default for DaemonConfig (src/config.rs impl Default). -/
def DaemonConfig.default : DaemonConfig :=
  { mqtt := MqttConfig.default, device := DeviceConfig.default,
    update_interval_secs := 30, discovery_delay_ms := 100 }

/-- The fields a TOML configuration file can actually supply.  Fields
marked #[serde(skip)] in src/config.rs (mqtt.client_id, device.model,
device.manufacturer) can never be set by the file, and #[serde(default)]
fills any missing field from the Default impls, so a successful parse is
fully described by this record. -/
structure ParsedToml where
  broker : String
  port : ℕ
  username : Option String
  password : Option String
  keep_alive_secs : ℕ
  device_name : String
  sw_version : Option String
  hw_version : Option String
  update_interval_secs : ℕ
  discovery_delay_ms : ℕ
  deriving DecidableEq

/-- The DaemonConfig produced by deserializing a TOML file, before the
explicit overrides in load_from_file: skipped fields hold their Default
values. -/
def ParsedToml.toConfig (p : ParsedToml) : DaemonConfig :=
  { mqtt := { broker := p.broker, port := p.port, username := p.username,
              password := p.password,
              client_id := MqttConfig.default.client_id,
              keep_alive_secs := p.keep_alive_secs },
    device := { name := p.device_name,
                model := DeviceConfig.default.model,
                manufacturer := DeviceConfig.default.manufacturer,
                sw_version := p.sw_version, hw_version := p.hw_version },
    update_interval_secs := p.update_interval_secs,
    discovery_delay_ms := p.discovery_delay_ms }

/-- DaemonConfig::load_from_file (src/config.rs) applied to a successfully
parsed file: hardcoded model/manufacturer overrides, then client_id derived
from the device name. -/
def load_from_file (p : ParsedToml) : DaemonConfig :=
  let config := p.toConfig
  let config := { config with device := { config.device with
    model := "OrbIQ System Monitor", manufacturer := "OrbIQ" } }
  { config with mqtt := { config.mqtt with
      client_id := "orbiq-" ++ config.device.name } }

/-- DaemonConfig::load_with_fallback (src/config.rs): `some p` stands for
the first config path that exists and parses (the result of load_from_file
is returned); `none` for no loadable file, in which case the default
config is patched with the derived client id and hardcoded device fields. -/
def load_with_fallback (r : Option ParsedToml) : DaemonConfig :=
  match r with
  | some p => load_from_file p
  | none =>
      let c := DaemonConfig.default
      let c := { c with mqtt := { c.mqtt with
        client_id := "orbiq-" ++ c.device.name } }
      { c with device := { c.device with
        model := "OrbIQ System Monitor", manufacturer := "OrbIQ" } }

/-! ## Home Assistant payload factory (src/homeassistant.rs) -/

/-- DeviceInfo from src/homeassistant.rs. -/
structure DeviceInfo where
  identifiers : List String
  name : String
  model : String
  manufacturer : String
  sw_version : Option String
  hw_version : Option String
  deriving DecidableEq

/-- DeviceInfo::from_config from src/homeassistant.rs. -/
def DeviceInfo.from_config (device_config : DeviceConfig) : DeviceInfo :=
  { identifiers := ["orbiq_" ++ device_config.name],
    name := device_config.name,
    model := "OrbIQ System Monitor",
    manufacturer := "OrbIQ",
    sw_version :=
      match device_config.sw_version with
      | some v => some v
      | none => some cargoPkgVersion,
    hw_version :=
      match device_config.hw_version with
      | some v => some v
      | none => some "1.0" }

/-- Serde serialization of DeviceInfo (derive Serialize): every field is
emitted; an absent Option becomes null. -/
def DeviceInfo.toJson (d : DeviceInfo) : Json :=
  Json.mkObj
    [ ("identifiers", .arr (Json.strArr d.identifiers)),
      ("name", .str d.name),
      ("model", .str d.model),
      ("manufacturer", .str d.manufacturer),
      ("sw_version", match d.sw_version with | some v => .str v | none => .null),
      ("hw_version", match d.hw_version with | some v => .str v | none => .null) ]

/-- Topic from src/homeassistant.rs. -/
structure Topic where
  sensor_name : String
  device_name : String
  sub_topic : String

/-- topic from src/homeassistant.rs: the single topic format string. -/
def topic (data : Topic) : String :=
  "homeassistant/sensor/orbiq_" ++
    (data.device_name ++ ("/" ++ (data.sensor_name ++ ("/" ++ data.sub_topic))))

/-- generate_friendly_name from src/homeassistant.rs. -/
def generate_friendly_name (sensor_name : String) : String :=
  if strContains sensor_name "k10temp" then "CPU Temperature"
  else if strContains sensor_name "nouveau" then "GPU Temperature"
  else if strContains sensor_name "nvme" then
    "NVMe " ++ ((sensor_name.splitOn "_").getLastD "Unknown") ++ " Temperature"
  else if strContains sensor_name "coretemp" then
    "Core " ++ ((sensor_name.splitOn "_").getLastD "Unknown") ++ " Temperature"
  else if strContains sensor_name "acpi" then "System Temperature"
  else if strContains sensor_name "amdgpu" then "AMD GPU Temperature"
  else if strContains sensor_name "radeon" then "Radeon GPU Temperature"
  else if strContains sensor_name "asus" then "ASUS Sensor Temperature"
  else if strContains sensor_name "iwlwifi" then "WiFi Module Temperature"
  else if strContains sensor_name "thermal" then "Thermal Zone Temperature"
  else (sensor_name.replace "_" " ") ++ " Temperature"

/-- generate_system_friendly_name from src/homeassistant.rs. -/
def generate_system_friendly_name (sensor : SystemSensor) : String :=
  match sensor.sensor_type with
  | .CpuUsage => "CPU Usage"
  | .MemoryUsage => "Memory Usage"
  | .MemoryUsed => "Memory Used"
  | .MemoryTotal => "Memory Total"
  | .DiskUsage =>
      if strContains sensor.name "root" then "Disk Usage (Root)"
      else
        "Disk Usage (" ++
          ((sensor.name.replace "disk_usage_" "").replace "_" " ").toUpper ++ ")"
  | .DiskUsed =>
      if strContains sensor.name "root" then "Disk Used (Root)"
      else
        "Disk Used (" ++
          ((sensor.name.replace "disk_used_" "").replace "_" " ").toUpper ++ ")"
  | .DiskTotal =>
      if strContains sensor.name "root" then "Disk Total (Root)"
      else
        "Disk Total (" ++
          ((sensor.name.replace "disk_total_" "").replace "_" " ").toUpper ++ ")"

/-- discovery_config from src/homeassistant.rs (temperature sensors). -/
def discovery_config (sensor : TemperatureSensor) (device_name : String)
    (device_info : DeviceInfo) : MqttPayload :=
  let unique_id := "orbiq_" ++ device_name ++ "_" ++ sensor.name
  let object_id := "orbiq_" ++ device_name ++ "_" ++ sensor.name
  let config_topic :=
    "homeassistant/sensor/orbiq_" ++
      (device_name ++ ("/" ++ (sensor.name ++ ("/" ++ "config"))))
  let state_topic :=
    "homeassistant/sensor/orbiq_" ++
      (device_name ++ ("/" ++ (sensor.name ++ ("/" ++ "state"))))
  let availability_topic :=
    "homeassistant/sensor/orbiq_" ++
      (device_name ++ ("/" ++ (sensor.name ++ ("/" ++ "availability"))))
  let friendly_name := generate_friendly_name sensor.name
  let config := Json.mkObj
    [ ("name", .str friendly_name),
      ("unique_id", .str unique_id),
      ("object_id", .str object_id),
      ("state_topic", .str state_topic),
      ("unit_of_measurement", .str "°C"),
      ("device_class", .str "temperature"),
      ("state_class", .str "measurement"),
      ("value_template", .str "\x7b\x7b value_json.temperature \x7d\x7d"),
      ("availability", Json.mkObj
        [ ("topic", .str availability_topic),
          ("payload_available", .str "online"),
          ("payload_not_available", .str "offline") ]),
      ("device", device_info.toJson) ]
  { topic := config_topic, body := .jsonB config, retain := true }

/-- temperature_state from src/homeassistant.rs: note the state body keys
the reading as "temperature". -/
def temperature_state (sensor : TemperatureSensor) (device_name : String) :
    MqttPayload :=
  let topic_data : Topic :=
    { device_name := device_name, sensor_name := sensor.name,
      sub_topic := "state" }
  let payload := Json.mkObj [("temperature", .num sensor.temperature)]
  { topic := topic topic_data, body := .jsonB payload, retain := false }

/-- sensor_availability from src/homeassistant.rs. -/
def sensor_availability (sensor : TemperatureSensor) (device_name : String)
    (available : Bool) : MqttPayload :=
  let topic_data : Topic :=
    { device_name := device_name, sensor_name := sensor.name,
      sub_topic := "availability" }
  { topic := topic topic_data,
    body := .rawB (if available then "online" else "offline"),
    retain := true }

/-- publish_sensor_availability from src/homeassistant.rs, modeled by the
payload it hands to the MQTT client (topic, online/offline body,
retain = true). -/
def publish_sensor_availability (sensor : TemperatureSensor)
    (device_name : String) (available : Bool) : MqttPayload :=
  let availability_topic :=
    "homeassistant/sensor/orbiq_" ++
      (device_name ++ ("/" ++ (sensor.name ++ ("/" ++ "availability"))))
  { topic := availability_topic,
    body := .rawB (if available then "online" else "offline"),
    retain := true }

/-- publish_system_discovery_config from src/homeassistant.rs, modeled by
the payload it hands to the MQTT client; device_class is appended to the
document only for the byte-size kinds. -/
def publish_system_discovery_config (sensor : SystemSensor)
    (device_name : String) (device_info : DeviceInfo) : MqttPayload :=
  let unique_id := "orbiq_" ++ device_name ++ "_" ++ sensor.name
  let object_id := "orbiq_" ++ device_name ++ "_" ++ sensor.name
  let config_topic :=
    "homeassistant/sensor/orbiq_" ++
      (device_name ++ ("/" ++ (sensor.name ++ ("/" ++ "config"))))
  let state_topic :=
    "homeassistant/sensor/orbiq_" ++
      (device_name ++ ("/" ++ (sensor.name ++ ("/" ++ "state"))))
  let availability_topic :=
    "homeassistant/sensor/orbiq_" ++
      (device_name ++ ("/" ++ (sensor.name ++ ("/" ++ "availability"))))
  let device_class : Option String :=
    match sensor.sensor_type with
    | .CpuUsage | .MemoryUsage | .DiskUsage => none
    | .MemoryUsed | .MemoryTotal | .DiskUsed | .DiskTotal => some "data_size"
  let friendly_name := generate_system_friendly_name sensor
  let baseFields : List (String × Json) :=
    [ ("name", .str friendly_name),
      ("unique_id", .str unique_id),
      ("object_id", .str object_id),
      ("state_topic", .str state_topic),
      ("unit_of_measurement", .str sensor.unit),
      ("state_class", .str "measurement"),
      ("value_template", .str "\x7b\x7b value_json.value \x7d\x7d"),
      ("availability", Json.mkObj
        [ ("topic", .str availability_topic),
          ("payload_available", .str "online"),
          ("payload_not_available", .str "offline") ]),
      ("icon", .str sensor.sensor_type.icon),
      ("device", device_info.toJson) ]
  let config := Json.mkObj
    (baseFields ++
      (match device_class with
       | some class_name => [("device_class", Json.str class_name)]
       | none => []))
  { topic := config_topic, body := .jsonB config, retain := true }

/-- system_state from src/homeassistant.rs: the state body keys the reading
as "value". -/
def system_state (sensor : SystemSensor) (device_name : String) : MqttPayload :=
  let topic_data : Topic :=
    { device_name := device_name, sensor_name := sensor.name,
      sub_topic := "state" }
  let payload := Json.mkObj [("value", .num sensor.value)]
  { topic := topic topic_data, body := .jsonB payload, retain := false }

/-- publish_system_sensor_availability from src/homeassistant.rs, modeled
by the payload it hands to the MQTT client. -/
def publish_system_sensor_availability (sensor : SystemSensor)
    (device_name : String) (available : Bool) : MqttPayload :=
  let availability_topic :=
    "homeassistant/sensor/orbiq_" ++
      (device_name ++ ("/" ++ (sensor.name ++ ("/" ++ "availability"))))
  { topic := availability_topic,
    body := .rawB (if available then "online" else "offline"),
    retain := true }

/-! ## The publish orchestration loop (publish_task in src/main.rs)

The loop is embedded as a sequential step function.  Each publish call the
task makes is recorded as one trace event; whether a given call succeeds is
decided by an outcome oracle `ok : Nat → Bool` consulted at a running
publish counter (threaded through the state), standing for the transport's
per-call result.  The payload of each event is the factory function of the
event's sensor and site, as pinned down by the definitions above. -/

/-- Which of the two per-channel discovered sets tracks the sensor:
temperature sensors (published_temp_sensors) or system sensors
(published_system_sensors). -/
inductive Chan where
  | temp | sys
  deriving DecidableEq

/-- The code site an availability publish originates from: the
discovery sequence, the every-20-cycles refresh block, or the shutdown
offline-marking pass. -/
inductive Site where
  | discSeq | refresh | shutdown
  deriving DecidableEq

/-- One publish call: discovery config, availability (with on-line flag and
site), or state; `success` records the transport outcome. -/
inductive EvKind where
  | disc (success : Bool) : EvKind
  | avail (online : Bool) (site : Site) (success : Bool) : EvKind
  | state (success : Bool) : EvKind
  deriving DecidableEq

/-- A trace event: one publish call made by publish_task. -/
structure Ev where
  chan : Chan
  name : String
  kind : EvKind
  deriving DecidableEq

/-- The mutable state of publish_task: the two discovered sets (HashSet
modeled as a list with membership semantics), the u32 cycle counter, and
the running publish-call counter indexing the outcome oracle. -/
structure LoopState where
  pubTemp : List String
  pubSys : List String
  counter : ℕ
  pubCnt : ℕ

/-- One cycle's environment: the two snapshots taken at the top of the
loop body. -/
structure CycleEnv where
  temps : List TemperatureSensor
  syss : List SystemSensor

/-- 2^32: the modulus of the u32 cycle counter (wrapping in release
builds). -/
def u32mod : ℕ := 4294967296

/-- The temperature loop of publish_task (src/main.rs lines 66-87): for
each snapshot sensor, if not yet discovered publish discovery and, only on
success, insert into the set and publish availability(true); then always
publish state. -/
def tempLoop (ok : ℕ → Bool) :
    List String → ℕ → List TemperatureSensor → List String × ℕ × List Ev
  | pub, cnt, [] => (pub, cnt, [])
  | pub, cnt, s :: rest =>
    if s.name ∈ pub then
      let e := Ev.mk .temp s.name (.state (ok cnt))
      let r := tempLoop ok pub (cnt + 1) rest
      (r.1, r.2.1, e :: r.2.2)
    else if ok cnt then
      let e1 := Ev.mk .temp s.name (.disc true)
      let e2 := Ev.mk .temp s.name (.avail true .discSeq (ok (cnt + 1)))
      let e3 := Ev.mk .temp s.name (.state (ok (cnt + 2)))
      let r := tempLoop ok (s.name :: pub) (cnt + 3) rest
      (r.1, r.2.1, e1 :: e2 :: e3 :: r.2.2)
    else
      let e1 := Ev.mk .temp s.name (.disc false)
      let e3 := Ev.mk .temp s.name (.state (ok (cnt + 1)))
      let r := tempLoop ok pub (cnt + 2) rest
      (r.1, r.2.1, e1 :: e3 :: r.2.2)

/-- The system discovery loop of publish_task (src/main.rs lines 91-119):
discovery then, only on success, insertion and availability(true); no
state publish here. -/
def sysDiscLoop (ok : ℕ → Bool) :
    List String → ℕ → List SystemSensor → List String × ℕ × List Ev
  | pub, cnt, [] => (pub, cnt, [])
  | pub, cnt, s :: rest =>
    if s.name ∈ pub then sysDiscLoop ok pub cnt rest
    else if ok cnt then
      let e1 := Ev.mk .sys s.name (.disc true)
      let e2 := Ev.mk .sys s.name (.avail true .discSeq (ok (cnt + 1)))
      let r := sysDiscLoop ok (s.name :: pub) (cnt + 2) rest
      (r.1, r.2.1, e1 :: e2 :: r.2.2)
    else
      let e1 := Ev.mk .sys s.name (.disc false)
      let r := sysDiscLoop ok pub (cnt + 1) rest
      (r.1, r.2.1, e1 :: r.2.2)

/-- The system state loop of publish_task (src/main.rs lines 121-126). -/
def sysStateLoop (ok : ℕ → Bool) : ℕ → List SystemSensor → ℕ × List Ev
  | cnt, [] => (cnt, [])
  | cnt, s :: rest =>
    let e := Ev.mk .sys s.name (.state (ok cnt))
    let r := sysStateLoop ok (cnt + 1) rest
    (r.1, e :: r.2)

/-- One arm of the availability refresh block (src/main.rs lines 128-159):
availability(true) for every name in the given snapshot list. -/
def refreshAvail (ok : ℕ → Bool) (c : Chan) : ℕ → List String → ℕ × List Ev
  | cnt, [] => (cnt, [])
  | cnt, n :: rest =>
    let e := Ev.mk c n (.avail true .refresh (ok cnt))
    let r := refreshAvail ok c (cnt + 1) rest
    (r.1, e :: r.2)

/-- One arm of the shutdown offline-marking pass (src/main.rs lines
162-183): availability(false) for every name in a fresh snapshot. -/
def shutdownAvail (ok : ℕ → Bool) (c : Chan) : ℕ → List String → ℕ × List Ev
  | cnt, [] => (cnt, [])
  | cnt, n :: rest =>
    let e := Ev.mk c n (.avail false .shutdown (ok cnt))
    let r := shutdownAvail ok c (cnt + 1) rest
    (r.1, e :: r.2)

/-- One full cycle of publish_task's loop body: temperature loop, system
discovery loop, system state loop, cycle-counter increment (u32, wrapping),
and the availability refresh when the incremented counter is divisible by
20. -/
def cycleStep (ok : ℕ → Bool) (st : LoopState) (env : CycleEnv) :
    LoopState × List Ev :=
  let rT := tempLoop ok st.pubTemp st.pubCnt env.temps
  let rD := sysDiscLoop ok st.pubSys rT.2.1 env.syss
  let rS := sysStateLoop ok rD.2.1 env.syss
  let ctr := (st.counter + 1) % u32mod
  if ctr % 20 = 0 then
    let rR1 := refreshAvail ok .temp rS.1 (env.temps.map (·.name))
    let rR2 := refreshAvail ok .sys rR1.1 (env.syss.map (·.name))
    (⟨rT.1, rD.1, ctr, rR2.1⟩, rT.2.2 ++ (rD.2.2 ++ (rS.2 ++ (rR1.2 ++ rR2.2))))
  else
    (⟨rT.1, rD.1, ctr, rS.1⟩, rT.2.2 ++ (rD.2.2 ++ rS.2))

/-- A run of consecutive complete cycles (one environment per cycle). -/
def run (ok : ℕ → Bool) : LoopState → List CycleEnv → LoopState × List Ev
  | st, [] => (st, [])
  | st, env :: envs =>
    let r1 := cycleStep ok st env
    let r2 := run ok r1.1 envs
    (r2.1, r1.2 ++ r2.2)

/-- The shutdown branch of the tokio::select! in publish_task: fresh
snapshots are taken and every sensor in them is marked offline, temperature
sensors first; then the loop breaks. -/
def shutdownEvs (ok : ℕ → Bool) (st : LoopState)
    (freshT : List TemperatureSensor) (freshS : List SystemSensor) : List Ev :=
  let r1 := shutdownAvail ok .temp st.pubCnt (freshT.map (·.name))
  let r2 := shutdownAvail ok .sys r1.1 (freshS.map (·.name))
  r1.2 ++ r2.2

/-- The publish calls made by publish_task itself over a run: some number
of full cycles followed by the shutdown pass triggered by a termination
signal during the inter-cycle sleep, with that offline-marking pass allowed
to run to completion (after it the loop breaks, so the task's trace ends
there).  This is the task-local ideal; the process-level truncation of the
pass by the outer select! in main is modeled by processRunAborted. -/
def processRun (ok : ℕ → Bool) (st : LoopState) (envs : List CycleEnv)
    (freshT : List TemperatureSensor) (freshS : List SystemSensor) : List Ev :=
  let r := run ok st envs
  r.2 ++ shutdownEvs ok r.1 freshT freshS

/-- The publish calls the process completes when the termination signal is
also observed by the outer tokio::select! in main (src/main.rs lines
187-213): its own ctrl_c branch completes on the same signal, main returns,
and dropping the runtime aborts publish_task at its next await point,
cutting the offline-marking pass (which awaits a publish and a 50 ms sleep
per sensor) after some race-dependent number k of its publish calls; the
MQTT event loop also stops being polled at that moment.  k = 0 models the
outer branch winning before the pass's first publish completes. -/
def processRunAborted (ok : ℕ → Bool) (st : LoopState) (envs : List CycleEnv)
    (freshT : List TemperatureSensor) (freshS : List SystemSensor)
    (k : ℕ) : List Ev :=
  let r := run ok st envs
  r.2 ++ (shutdownEvs ok r.1 freshT freshS).take k

/-- The state publish_task starts from: empty discovered sets, cycle
counter zero. -/
def initState : LoopState := ⟨[], [], 0, 0⟩

/-! ## Trace predicates -/

/-- The event is a discovery publish for the given name (either outcome,
either channel). -/
def isDiscFor (n : String) (e : Ev) : Bool :=
  e.name == n && (match e.kind with | .disc _ => true | _ => false)

/-- The event is a successful discovery publish for the given name. -/
def isSuccDiscFor (n : String) (e : Ev) : Bool :=
  e.name == n && (match e.kind with | .disc true => true | _ => false)

/-- Channel-restricted discovery-event test. -/
def isDiscForC (c : Chan) (n : String) (e : Ev) : Bool :=
  e.chan == c && isDiscFor n e

/-- Channel-restricted successful-discovery test. -/
def isSuccDiscForC (c : Chan) (n : String) (e : Ev) : Bool :=
  e.chan == c && isSuccDiscFor n e

/-- The event is an availability(true) publish for the given name. -/
def isAvailTrueFor (n : String) (e : Ev) : Bool :=
  e.name == n && (match e.kind with | .avail true _ _ => true | _ => false)

/-- The event is an availability(true) publish for the given name emitted
by the discovery sequence (as opposed to the periodic refresh). -/
def isDiscSeqAvailFor (n : String) (e : Ev) : Bool :=
  e.name == n && (match e.kind with | .avail true .discSeq _ => true | _ => false)

/-- The event is an availability(false) publish for the given name. -/
def isAvailFalseFor (n : String) (e : Ev) : Bool :=
  e.name == n && (match e.kind with | .avail false _ _ => true | _ => false)

/-- Channel-restricted failed-discovery test. -/
def isFailDiscForC (c : Chan) (n : String) (e : Ev) : Bool :=
  e.chan == c && e.name == n &&
    (match e.kind with | .disc false => true | _ => false)

/-- Channel-restricted discovery-sequence availability(true) test. -/
def isDiscSeqAvailForC (c : Chan) (n : String) (e : Ev) : Bool :=
  e.chan == c && isDiscSeqAvailFor n e

/-- The event is an availability publish from the refresh block. -/
def isRefreshEv (e : Ev) : Bool :=
  match e.kind with | .avail _ .refresh _ => true | _ => false

/-- Channel, name and on-line flag of an availability event (used to
describe the refresh block's output). -/
def evSig (e : Ev) : Chan × String × Bool :=
  (e.chan, e.name, match e.kind with | .avail b _ _ => b | _ => false)

/-- No discovery publish at all for the name in the trace. -/
def noDiscB (n : String) (tr : List Ev) : Bool :=
  tr.all (fun e => !(isDiscFor n e))

/-- Channel-restricted version of noDiscB. -/
def noDiscCB (c : Chan) (n : String) (tr : List Ev) : Bool :=
  tr.all (fun e => !(isDiscForC c n e))

/-- Discovery-once: after any successful discovery publish for the name,
no further discovery publish for it occurs in the rest of the trace. -/
def discOnceB (n : String) : List Ev → Bool
  | [] => true
  | e :: tr => (!(isSuccDiscFor n e) || noDiscB n tr) && discOnceB n tr

/-- Channel-restricted version of discOnceB. -/
def discOnceCB (c : Chan) (n : String) : List Ev → Bool
  | [] => true
  | e :: tr => (!(isSuccDiscForC c n e) || noDiscCB c n tr) && discOnceCB c n tr

/-- The discovered set tracking the given channel. -/
def pubOf (c : Chan) (st : LoopState) : List String :=
  match c with | .temp => st.pubTemp | .sys => st.pubSys

/-- Every temperature-sensor name of every cycle's snapshot. -/
def allTempNames (envs : List CycleEnv) : List String :=
  (envs.map (fun env => env.temps.map (·.name))).flatten

/-- Every system-sensor name of every cycle's snapshot. -/
def allSysNames (envs : List CycleEnv) : List String :=
  (envs.map (fun env => env.syss.map (·.name))).flatten

/-- No name is ever both a temperature-sensor and a system-sensor name in
the run (the spec's per-cycle name-uniqueness invariant). -/
def crossDisjointB (envs : List CycleEnv) : Bool :=
  (allTempNames envs).all (fun n => !((allSysNames envs).any (fun m => m == n)))

/-! ## String helper lemmas for topic separation -/

theorem string_data_inj {s t : String} (h : s.data = t.data) : s = t := by
  cases s
  cases t
  exact congrArg String.mk h

theorem string_append_left_cancel {a b c : String} (h : a ++ b = a ++ c) :
    b = c := by
  apply string_data_inj
  have hd : a.data ++ b.data = a.data ++ c.data := by
    rw [← String.data_append, ← String.data_append, h]
  exact List.append_cancel_left hd

theorem string_append_right_cancel {a b c : String} (h : a ++ c = b ++ c) :
    a = b := by
  apply string_data_inj
  have hd : a.data ++ c.data = b.data ++ c.data := by
    rw [← String.data_append, ← String.data_append, h]
  exact List.append_cancel_right hd

theorem append_data_ne_nil_left (s t : String) (h : s.data ≠ []) :
    (s ++ t).data ≠ [] := by
  rw [String.data_append]
  intro hc
  exact h (List.append_eq_nil.mp hc).1

theorem append_data_ne_nil_right (s t : String) (h : t.data ≠ []) :
    (s ++ t).data ≠ [] := by
  rw [String.data_append]
  intro hc
  exact h (List.append_eq_nil.mp hc).2

theorem head_append_of_ne_nil {α : Type} (l1 l2 : List α) (h : l1 ≠ []) :
    (l1 ++ l2).head? = l1.head? := by
  cases l1 with
  | nil => exact absurd rfl h
  | cons a tl => rfl

theorem lastCh_append (s t : String) (h : t.data ≠ []) :
    lastCh (s ++ t) = lastCh t := by
  unfold lastCh
  rw [String.data_append, List.reverse_append]
  exact head_append_of_ne_nil _ _ (by simpa using h)

theorem ne_of_lastCh {s t : String} (h : lastCh s ≠ lastCh t) : s ≠ t := by
  intro hc
  exact h (by rw [hc])

theorem lastCh_topicStr (d n sub : String) :
    lastCh ("homeassistant/sensor/orbiq_" ++ (d ++ ("/" ++ (n ++ ("/" ++ sub)))))
      = lastCh ("/" ++ sub) := by
  have h4 : ("/" ++ sub).data ≠ [] :=
    append_data_ne_nil_left _ _ (by decide)
  have h3 : (n ++ ("/" ++ sub)).data ≠ [] :=
    append_data_ne_nil_right _ _ h4
  have h2 : ("/" ++ (n ++ ("/" ++ sub))).data ≠ [] :=
    append_data_ne_nil_left _ _ (by decide)
  have h1 : (d ++ ("/" ++ (n ++ ("/" ++ sub)))).data ≠ [] :=
    append_data_ne_nil_right _ _ h2
  rw [lastCh_append _ _ h1, lastCh_append _ _ h2, lastCh_append _ _ h3,
    lastCh_append _ _ h4]

theorem topic_ne_cross (d n1 n2 sub1 sub2 : String)
    (h : lastCh ("/" ++ sub1) ≠ lastCh ("/" ++ sub2)) :
    "homeassistant/sensor/orbiq_" ++ (d ++ ("/" ++ (n1 ++ ("/" ++ sub1)))) ≠
      "homeassistant/sensor/orbiq_" ++ (d ++ ("/" ++ (n2 ++ ("/" ++ sub2)))) := by
  apply ne_of_lastCh
  rw [lastCh_topicStr, lastCh_topicStr]
  exact h

theorem topic_ne_same (d n1 n2 sub : String) (h : n1 ≠ n2) :
    "homeassistant/sensor/orbiq_" ++ (d ++ ("/" ++ (n1 ++ ("/" ++ sub)))) ≠
      "homeassistant/sensor/orbiq_" ++ (d ++ ("/" ++ (n2 ++ ("/" ++ sub)))) := by
  intro hc
  apply h
  have h1 := string_append_left_cancel hc
  have h2 := string_append_left_cancel h1
  have h3 := string_append_left_cancel h2
  exact string_append_right_cancel h3

/-! ## Loop trace lemmas -/

theorem tempLoop_filter_refresh (ok : ℕ → Bool) (pub : List String) (cnt : ℕ)
    (ss : List TemperatureSensor) :
    (tempLoop ok pub cnt ss).2.2.filter isRefreshEv = [] := by
  induction ss generalizing pub cnt with
  | nil => simp [tempLoop]
  | cons s rest ih =>
      by_cases h1 : s.name ∈ pub
      · simp [tempLoop, h1, isRefreshEv, ih]
      · cases h2 : ok cnt <;> simp [tempLoop, h1, h2, isRefreshEv, ih]

theorem sysDiscLoop_filter_refresh (ok : ℕ → Bool) (pub : List String) (cnt : ℕ)
    (ss : List SystemSensor) :
    (sysDiscLoop ok pub cnt ss).2.2.filter isRefreshEv = [] := by
  induction ss generalizing pub cnt with
  | nil => simp [sysDiscLoop]
  | cons s rest ih =>
      by_cases h1 : s.name ∈ pub
      · simp [sysDiscLoop, h1, ih]
      · cases h2 : ok cnt <;> simp [sysDiscLoop, h1, h2, isRefreshEv, ih]

theorem sysStateLoop_filter_refresh (ok : ℕ → Bool) (cnt : ℕ)
    (ss : List SystemSensor) :
    (sysStateLoop ok cnt ss).2.filter isRefreshEv = [] := by
  induction ss generalizing cnt with
  | nil => simp [sysStateLoop]
  | cons s rest ih => simp [sysStateLoop, isRefreshEv, ih]

theorem refreshAvail_sig (ok : ℕ → Bool) (c : Chan) (cnt : ℕ)
    (names : List String) :
    ((refreshAvail ok c cnt names).2.filter isRefreshEv).map evSig
      = names.map (fun n => (c, n, true)) := by
  induction names generalizing cnt with
  | nil => simp [refreshAvail]
  | cons n rest ih => simp [refreshAvail, isRefreshEv, evSig, ih]

/-! ## Claim C4: refresh cadence -/

/-- Claim C4: the cycle counter is incremented exactly once per iteration
(as a u32), and the refresh block publishes availability(true) for exactly
the sensors of the current snapshot (temperature then system) precisely on
cycles where the incremented counter is divisible by 20, and on no other
cycle. -/
theorem claim_C4 (ok : ℕ → Bool) (st : LoopState) (env : CycleEnv) :
    (cycleStep ok st env).1.counter = (st.counter + 1) % u32mod ∧
    ((cycleStep ok st env).2.filter isRefreshEv).map evSig
      = (if ((st.counter + 1) % u32mod) % 20 = 0
         then env.temps.map (fun s => (Chan.temp, s.name, true))
              ++ env.syss.map (fun s => (Chan.sys, s.name, true))
         else []) := by
  by_cases hc : ((st.counter + 1) % u32mod) % 20 = 0
  · refine ⟨by simp [cycleStep, hc], ?_⟩
    simp [cycleStep, hc, List.filter_append, tempLoop_filter_refresh,
      sysDiscLoop_filter_refresh, sysStateLoop_filter_refresh,
      refreshAvail_sig]
    rfl
  · refine ⟨by simp [cycleStep, hc], ?_⟩
    simp [cycleStep, hc, List.filter_append, tempLoop_filter_refresh,
      sysDiscLoop_filter_refresh, sysStateLoop_filter_refresh]

/-! ## Claim C3: shutdown completeness -/

theorem tempLoop_filter_availFalse (ok : ℕ → Bool) (pub : List String)
    (cnt : ℕ) (ss : List TemperatureSensor) (n : String) :
    (tempLoop ok pub cnt ss).2.2.filter (isAvailFalseFor n) = [] := by
  induction ss generalizing pub cnt with
  | nil => simp [tempLoop]
  | cons s rest ih =>
      by_cases h1 : s.name ∈ pub
      · simp [tempLoop, h1, isAvailFalseFor, ih]
      · cases h2 : ok cnt <;> simp [tempLoop, h1, h2, isAvailFalseFor, ih]

theorem sysDiscLoop_filter_availFalse (ok : ℕ → Bool) (pub : List String)
    (cnt : ℕ) (ss : List SystemSensor) (n : String) :
    (sysDiscLoop ok pub cnt ss).2.2.filter (isAvailFalseFor n) = [] := by
  induction ss generalizing pub cnt with
  | nil => simp [sysDiscLoop]
  | cons s rest ih =>
      by_cases h1 : s.name ∈ pub
      · simp [sysDiscLoop, h1, ih]
      · cases h2 : ok cnt <;> simp [sysDiscLoop, h1, h2, isAvailFalseFor, ih]

theorem sysStateLoop_filter_availFalse (ok : ℕ → Bool) (cnt : ℕ)
    (ss : List SystemSensor) (n : String) :
    (sysStateLoop ok cnt ss).2.filter (isAvailFalseFor n) = [] := by
  induction ss generalizing cnt with
  | nil => simp [sysStateLoop]
  | cons s rest ih => simp [sysStateLoop, isAvailFalseFor, ih]

theorem refreshAvail_filter_availFalse (ok : ℕ → Bool) (c : Chan) (cnt : ℕ)
    (names : List String) (n : String) :
    (refreshAvail ok c cnt names).2.filter (isAvailFalseFor n) = [] := by
  induction names generalizing cnt with
  | nil => simp [refreshAvail]
  | cons m rest ih => simp [refreshAvail, isAvailFalseFor, ih]

theorem cycleStep_filter_availFalse (ok : ℕ → Bool) (st : LoopState)
    (env : CycleEnv) (n : String) :
    (cycleStep ok st env).2.filter (isAvailFalseFor n) = [] := by
  by_cases hc : ((st.counter + 1) % u32mod) % 20 = 0 <;>
    simp [cycleStep, hc, List.filter_append, tempLoop_filter_availFalse,
      sysDiscLoop_filter_availFalse, sysStateLoop_filter_availFalse,
      refreshAvail_filter_availFalse]

theorem run_filter_availFalse (ok : ℕ → Bool) (st : LoopState)
    (envs : List CycleEnv) (n : String) :
    (run ok st envs).2.filter (isAvailFalseFor n) = [] := by
  induction envs generalizing st with
  | nil => simp [run]
  | cons env rest ih =>
      simp [run, List.filter_append, cycleStep_filter_availFalse, ih]

theorem shutdownAvail_count (ok : ℕ → Bool) (c : Chan) (cnt : ℕ)
    (names : List String) (n : String) :
    ((shutdownAvail ok c cnt names).2.filter (isAvailFalseFor n)).length
      = names.count n := by
  induction names generalizing cnt with
  | nil => simp [shutdownAvail]
  | cons m rest ih =>
      by_cases h : m = n
      · simp [shutdownAvail, isAvailFalseFor, h, ih, List.count_cons]
      · simp [shutdownAvail, isAvailFalseFor, h, ih, List.count_cons]

/-- Claim C3, code bug: on a termination signal during the inter-cycle
sleep, publish_task's shutdown branch alone would publish exactly one
availability(false) per fresh-snapshot sensor (third conjunct, on the
task-local trace), but the same signal also completes the ctrl_c branch of
the outer select! in main, which returns and aborts the in-flight pass; at
the failing input — one fresh temperature sensor t, one prior cycle, the
outer branch winning before the pass's first publish completes (abort
point 0) — the process publishes no availability(false) for t at all,
against the claimed shutdown completeness. -/
theorem claim_C3 :
    ("t" ∈ ([⟨"t", 50, "p"⟩] : List TemperatureSensor).map (·.name)) ∧
    ((processRunAborted (fun _ => true) initState [⟨[⟨"t", 50, "p"⟩], []⟩]
        [⟨"t", 50, "p"⟩] [] 0).filter (isAvailFalseFor "t")).length = 0 ∧
    ((processRun (fun _ => true) initState [⟨[⟨"t", 50, "p"⟩], []⟩]
        [⟨"t", 50, "p"⟩] []).filter (isAvailFalseFor "t")).length = 1 :=
  ⟨by decide, by decide, by decide⟩

/-! ## Per-loop discovery lemmas -/

theorem any_false_of_imp {l : List Ev} {p q : Ev → Bool}
    (himp : ∀ e, p e = true → q e = true) (h : l.any q = false) :
    l.any p = false := by
  rw [List.any_eq_false] at *
  intro e he hpe
  exact h e he (himp e hpe)

theorem succ_imp_disc (c : Chan) (n : String) (e : Ev)
    (h : isSuccDiscForC c n e = true) : isDiscForC c n e = true := by
  cases e with
  | mk ch nm k =>
      cases k with
      | disc b =>
          cases b <;>
            simp_all [isSuccDiscForC, isSuccDiscFor, isDiscForC, isDiscFor]
      | avail b s r => simp_all [isSuccDiscForC, isSuccDiscFor]
      | state b => simp_all [isSuccDiscForC, isSuccDiscFor]

theorem tempLoop_chan (ok : ℕ → Bool) (pub : List String) (cnt : ℕ)
    (ss : List TemperatureSensor) :
    ∀ e ∈ (tempLoop ok pub cnt ss).2.2, e.chan = .temp := by
  induction ss generalizing pub cnt with
  | nil => simp [tempLoop]
  | cons s rest ih =>
      by_cases h1 : s.name ∈ pub
      · simp [tempLoop, h1]
        exact fun e he => ih _ _ e he
      · cases h2 : ok cnt <;> simp [tempLoop, h1, h2] <;>
          exact fun e he => ih _ _ e he

theorem sysDiscLoop_chan (ok : ℕ → Bool) (pub : List String) (cnt : ℕ)
    (ss : List SystemSensor) :
    ∀ e ∈ (sysDiscLoop ok pub cnt ss).2.2, e.chan = .sys := by
  induction ss generalizing pub cnt with
  | nil => simp [sysDiscLoop]
  | cons s rest ih =>
      by_cases h1 : s.name ∈ pub
      · simp [sysDiscLoop, h1]
        exact fun e he => ih _ _ e he
      · cases h2 : ok cnt <;> simp [sysDiscLoop, h1, h2] <;>
          exact fun e he => ih _ _ e he

theorem sysStateLoop_kind (ok : ℕ → Bool) (cnt : ℕ) (ss : List SystemSensor) :
    ∀ e ∈ (sysStateLoop ok cnt ss).2, ∃ b, e.kind = .state b := by
  induction ss generalizing cnt with
  | nil => simp [sysStateLoop]
  | cons s rest ih =>
      intro e he
      simp only [sysStateLoop, List.mem_cons] at he
      rcases he with rfl | he
      · exact ⟨ok cnt, rfl⟩
      · exact ih _ e he

theorem refreshAvail_kind (ok : ℕ → Bool) (c : Chan) (cnt : ℕ)
    (names : List String) :
    ∀ e ∈ (refreshAvail ok c cnt names).2, ∃ b, e.kind = .avail true .refresh b := by
  induction names generalizing cnt with
  | nil => simp [refreshAvail]
  | cons m rest ih =>
      intro e he
      simp only [refreshAvail, List.mem_cons] at he
      rcases he with rfl | he
      · exact ⟨ok cnt, rfl⟩
      · exact ih _ e he

theorem shutdownAvail_kind (ok : ℕ → Bool) (c : Chan) (cnt : ℕ)
    (names : List String) :
    ∀ e ∈ (shutdownAvail ok c cnt names).2, ∃ b, e.kind = .avail false .shutdown b := by
  induction names generalizing cnt with
  | nil => simp [shutdownAvail]
  | cons m rest ih =>
      intro e he
      simp only [shutdownAvail, List.mem_cons] at he
      rcases he with rfl | he
      · exact ⟨ok cnt, rfl⟩
      · exact ih _ e he

theorem sysDiscLoop_no_temp_disc (ok : ℕ → Bool) (pub : List String) (cnt : ℕ)
    (ss : List SystemSensor) (n : String) :
    (sysDiscLoop ok pub cnt ss).2.2.any (isDiscForC .temp n) = false := by
  rw [List.any_eq_false]
  intro e he
  have hc := sysDiscLoop_chan ok pub cnt ss e he
  simp [isDiscForC, hc]

theorem sysDiscLoop_no_temp_discSeqAvail (ok : ℕ → Bool) (pub : List String)
    (cnt : ℕ) (ss : List SystemSensor) (n : String) :
    (sysDiscLoop ok pub cnt ss).2.2.any (isDiscSeqAvailForC .temp n) = false := by
  rw [List.any_eq_false]
  intro e he
  have hc := sysDiscLoop_chan ok pub cnt ss e he
  simp [isDiscSeqAvailForC, hc]

theorem sysStateLoop_no_disc (ok : ℕ → Bool) (cnt : ℕ) (ss : List SystemSensor)
    (c : Chan) (n : String) :
    (sysStateLoop ok cnt ss).2.any (isDiscForC c n) = false := by
  rw [List.any_eq_false]
  intro e he
  obtain ⟨b, hb⟩ := sysStateLoop_kind ok cnt ss e he
  simp [isDiscForC, isDiscFor, hb]

theorem sysStateLoop_no_discSeqAvail (ok : ℕ → Bool) (cnt : ℕ)
    (ss : List SystemSensor) (c : Chan) (n : String) :
    (sysStateLoop ok cnt ss).2.any (isDiscSeqAvailForC c n) = false := by
  rw [List.any_eq_false]
  intro e he
  obtain ⟨b, hb⟩ := sysStateLoop_kind ok cnt ss e he
  simp [isDiscSeqAvailForC, isDiscSeqAvailFor, hb]

theorem refreshAvail_no_disc (ok : ℕ → Bool) (c0 : Chan) (cnt : ℕ)
    (names : List String) (c : Chan) (n : String) :
    (refreshAvail ok c0 cnt names).2.any (isDiscForC c n) = false := by
  rw [List.any_eq_false]
  intro e he
  obtain ⟨b, hb⟩ := refreshAvail_kind ok c0 cnt names e he
  simp [isDiscForC, isDiscFor, hb]

theorem refreshAvail_no_discSeqAvail (ok : ℕ → Bool) (c0 : Chan) (cnt : ℕ)
    (names : List String) (c : Chan) (n : String) :
    (refreshAvail ok c0 cnt names).2.any (isDiscSeqAvailForC c n) = false := by
  rw [List.any_eq_false]
  intro e he
  obtain ⟨b, hb⟩ := refreshAvail_kind ok c0 cnt names e he
  simp [isDiscSeqAvailForC, isDiscSeqAvailFor, hb]

theorem shutdownAvail_no_disc (ok : ℕ → Bool) (c0 : Chan) (cnt : ℕ)
    (names : List String) (c : Chan) (n : String) :
    (shutdownAvail ok c0 cnt names).2.any (isDiscForC c n) = false := by
  rw [List.any_eq_false]
  intro e he
  obtain ⟨b, hb⟩ := shutdownAvail_kind ok c0 cnt names e he
  simp [isDiscForC, isDiscFor, hb]

theorem sysDiscLoop_no_temp_succ (ok : ℕ → Bool) (pub : List String) (cnt : ℕ)
    (ss : List SystemSensor) (n : String) :
    (sysDiscLoop ok pub cnt ss).2.2.any (isSuccDiscForC .temp n) = false :=
  any_false_of_imp (succ_imp_disc .temp n) (sysDiscLoop_no_temp_disc ok pub cnt ss n)

theorem sysStateLoop_no_succ (ok : ℕ → Bool) (cnt : ℕ) (ss : List SystemSensor)
    (c : Chan) (n : String) :
    (sysStateLoop ok cnt ss).2.any (isSuccDiscForC c n) = false :=
  any_false_of_imp (succ_imp_disc c n) (sysStateLoop_no_disc ok cnt ss c n)

theorem refreshAvail_no_succ (ok : ℕ → Bool) (c0 : Chan) (cnt : ℕ)
    (names : List String) (c : Chan) (n : String) :
    (refreshAvail ok c0 cnt names).2.any (isSuccDiscForC c n) = false :=
  any_false_of_imp (succ_imp_disc c n) (refreshAvail_no_disc ok c0 cnt names c n)

theorem shutdownAvail_no_succ (ok : ℕ → Bool) (c0 : Chan) (cnt : ℕ)
    (names : List String) (c : Chan) (n : String) :
    (shutdownAvail ok c0 cnt names).2.any (isSuccDiscForC c n) = false :=
  any_false_of_imp (succ_imp_disc c n) (shutdownAvail_no_disc ok c0 cnt names c n)

theorem tempLoop_mem (ok : ℕ → Bool) (pub : List String) (cnt : ℕ)
    (ss : List TemperatureSensor) (n : String) :
    n ∈ (tempLoop ok pub cnt ss).1 ↔
      n ∈ pub ∨ (tempLoop ok pub cnt ss).2.2.any (isSuccDiscForC .temp n) = true := by
  induction ss generalizing pub cnt with
  | nil => simp [tempLoop]
  | cons s rest ih =>
      by_cases h1 : s.name ∈ pub
      · simp [tempLoop, h1, isSuccDiscForC, isSuccDiscFor, ih]
      · cases h2 : ok cnt
        · simp [tempLoop, h1, h2, isSuccDiscForC, isSuccDiscFor, ih]
        · simp [tempLoop, h1, h2, isSuccDiscForC, isSuccDiscFor, ih]
          tauto

theorem tempLoop_attempts (ok : ℕ → Bool) (pub : List String) (cnt : ℕ)
    (ss : List TemperatureSensor) (n : String)
    (h1 : n ∈ ss.map (·.name)) (h2 : n ∉ pub) :
    (tempLoop ok pub cnt ss).2.2.any (isDiscForC .temp n) = true := by
  induction ss generalizing pub cnt with
  | nil => simp at h1
  | cons s rest ih =>
      simp only [List.map_cons, List.mem_cons] at h1
      by_cases hp : s.name ∈ pub
      · have hne : n ≠ s.name := fun hc => h2 (hc ▸ hp)
        have hn : n ∈ rest.map (·.name) := by
          rcases h1 with h | h
          · exact absurd h hne
          · exact h
        have key := ih pub (cnt + 1) hn h2
        rw [List.any_eq_true] at key ⊢
        obtain ⟨e, he, hpe⟩ := key
        refine ⟨e, ?_, hpe⟩
        simp only [tempLoop, if_pos hp, List.mem_cons]
        exact Or.inr he
      · cases ho : ok cnt
        · rw [List.any_eq_true]
          by_cases hn : n = s.name
          · subst hn
            refine ⟨Ev.mk .temp s.name (.disc false), ?_, ?_⟩
            · simp [tempLoop, hp, ho]
            · simp [isDiscForC, isDiscFor]
          · have hn2 : n ∈ rest.map (·.name) := by
              rcases h1 with h | h
              · exact absurd h hn
              · exact h
            have key := ih pub (cnt + 2) hn2 h2
            rw [List.any_eq_true] at key
            obtain ⟨e, he, hpe⟩ := key
            refine ⟨e, ?_, hpe⟩
            simp [tempLoop, hp, ho]
            exact Or.inr (Or.inr he)
        · rw [List.any_eq_true]
          by_cases hn : n = s.name
          · subst hn
            refine ⟨Ev.mk .temp s.name (.disc true), ?_, ?_⟩
            · simp [tempLoop, hp, ho]
            · simp [isDiscForC, isDiscFor]
          · have hn2 : n ∈ rest.map (·.name) := by
              rcases h1 with h | h
              · exact absurd h hn
              · exact h
            have h2' : n ∉ s.name :: pub := by
              simp only [List.mem_cons]
              rintro (h | h)
              · exact hn h
              · exact h2 h
            have key := ih (s.name :: pub) (cnt + 3) hn2 h2'
            rw [List.any_eq_true] at key
            obtain ⟨e, he, hpe⟩ := key
            refine ⟨e, ?_, hpe⟩
            simp [tempLoop, hp, ho]
            exact Or.inr (Or.inr (Or.inr he))

theorem tempLoop_availDiscSeq (ok : ℕ → Bool) (pub : List String) (cnt : ℕ)
    (ss : List TemperatureSensor) (n : String)
    (h : (tempLoop ok pub cnt ss).2.2.any (isDiscSeqAvailForC .temp n) = true) :
    (tempLoop ok pub cnt ss).2.2.any (isSuccDiscForC .temp n) = true := by
  induction ss generalizing pub cnt with
  | nil => simp [tempLoop] at h
  | cons s rest ih =>
      by_cases h1 : s.name ∈ pub
      · rw [List.any_eq_true] at h ⊢
        obtain ⟨e, he, hpe⟩ := h
        simp only [tempLoop, if_pos h1, List.mem_cons] at he
        rcases he with rfl | he
        · simp [isDiscSeqAvailForC, isDiscSeqAvailFor] at hpe
        · have hrec : (tempLoop ok pub (cnt + 1) rest).2.2.any
              (isDiscSeqAvailForC .temp n) = true := by
            rw [List.any_eq_true]
            exact ⟨e, he, hpe⟩
          have key := ih pub (cnt + 1) hrec
          rw [List.any_eq_true] at key
          obtain ⟨e2, he2, hp2⟩ := key
          refine ⟨e2, ?_, hp2⟩
          simp only [tempLoop, if_pos h1, List.mem_cons]
          exact Or.inr he2
      · cases h2 : ok cnt
        · rw [List.any_eq_true] at h ⊢
          obtain ⟨e, he, hpe⟩ := h
          simp [tempLoop, h1, h2] at he
          rcases he with rfl | rfl | he
          · simp [isDiscSeqAvailForC, isDiscSeqAvailFor] at hpe
          · simp [isDiscSeqAvailForC, isDiscSeqAvailFor] at hpe
          · have hrec : (tempLoop ok pub (cnt + 2) rest).2.2.any
                (isDiscSeqAvailForC .temp n) = true := by
              rw [List.any_eq_true]
              exact ⟨e, he, hpe⟩
            have key := ih pub (cnt + 2) hrec
            rw [List.any_eq_true] at key
            obtain ⟨e2, he2, hp2⟩ := key
            refine ⟨e2, ?_, hp2⟩
            simp [tempLoop, h1, h2]
            exact Or.inr (Or.inr he2)
        · by_cases hn : s.name = n
          · rw [List.any_eq_true]
            refine ⟨Ev.mk .temp s.name (.disc true), ?_, ?_⟩
            · simp [tempLoop, h1, h2]
            · simp [isSuccDiscForC, isSuccDiscFor, hn]
          · rw [List.any_eq_true] at h ⊢
            obtain ⟨e, he, hpe⟩ := h
            simp [tempLoop, h1, h2] at he
            rcases he with rfl | rfl | rfl | he
            · simp [isDiscSeqAvailForC, isDiscSeqAvailFor] at hpe
            · simp [isDiscSeqAvailForC, isDiscSeqAvailFor, hn] at hpe
            · simp [isDiscSeqAvailForC, isDiscSeqAvailFor] at hpe
            · have hrec : (tempLoop ok (s.name :: pub) (cnt + 3) rest).2.2.any
                  (isDiscSeqAvailForC .temp n) = true := by
                rw [List.any_eq_true]
                exact ⟨e, he, hpe⟩
              have key := ih (s.name :: pub) (cnt + 3) hrec
              rw [List.any_eq_true] at key
              obtain ⟨e2, he2, hp2⟩ := key
              refine ⟨e2, ?_, hp2⟩
              simp [tempLoop, h1, h2]
              exact Or.inr (Or.inr (Or.inr he2))

/-! ## Discovery-once machinery -/

theorem noDiscCB_iff (c : Chan) (n : String) (l : List Ev) :
    noDiscCB c n l = true ↔ l.any (isDiscForC c n) = false := by
  simp [noDiscCB, List.all_eq_true, List.any_eq_false]

theorem noDiscCB_append (c : Chan) (n : String) (a b : List Ev) :
    noDiscCB c n (a ++ b) = (noDiscCB c n a && noDiscCB c n b) := by
  simp [noDiscCB, List.all_append]

theorem noDisc_discOnce (c : Chan) (n : String) (l : List Ev)
    (h : noDiscCB c n l = true) : discOnceCB c n l = true := by
  induction l with
  | nil => rfl
  | cons e tl ih =>
      rw [noDiscCB, List.all_cons, Bool.and_eq_true] at h
      have hnd : isSuccDiscForC c n e = false := by
        cases hx : isSuccDiscForC c n e
        · rfl
        · exfalso
          have hd := succ_imp_disc c n e hx
          have h1 := h.1
          rw [hd] at h1
          simp at h1
      rw [discOnceCB, Bool.and_eq_true, hnd]
      exact ⟨by simp, ih h.2⟩

theorem discOnce_append_full (c : Chan) (n : String) (a b : List Ev)
    (ha : discOnceCB c n a = true) (hb : discOnceCB c n b = true)
    (hs : a.any (isSuccDiscForC c n) = true → noDiscCB c n b = true) :
    discOnceCB c n (a ++ b) = true := by
  induction a with
  | nil => simpa using hb
  | cons e tl ih =>
      rw [discOnceCB, Bool.and_eq_true] at ha
      rw [List.cons_append, discOnceCB, Bool.and_eq_true]
      constructor
      · cases hx : isSuccDiscForC c n e
        · simp
        · have h1 : noDiscCB c n tl = true := by
            have h0 := ha.1
            rw [hx] at h0
            simpa using h0
          have h2 : noDiscCB c n b = true := hs (by simp [List.any_cons, hx])
          simp only [hx, Bool.not_true, Bool.false_or]
          rw [noDiscCB_append, h1, h2]
          rfl
      · exact ih ha.2 (fun h => hs (by simp [List.any_cons, h]))

theorem discOnce_prefix_noDisc (c : Chan) (n : String) (a b : List Ev)
    (ha : noDiscCB c n a = true) (hb : discOnceCB c n b = true) :
    discOnceCB c n (a ++ b) = true := by
  refine discOnce_append_full c n a b (noDisc_discOnce c n a ha) hb (fun hs => ?_)
  exfalso
  rw [List.any_eq_true] at hs
  obtain ⟨e, he, hpe⟩ := hs
  rw [noDiscCB, List.all_eq_true] at ha
  have := ha e he
  rw [succ_imp_disc c n e hpe] at this
  exact absurd this (by simp)

/-! ## Further per-loop lemmas for discovery-once -/

theorem tempLoop_no_sys_disc (ok : ℕ → Bool) (pub : List String) (cnt : ℕ)
    (ss : List TemperatureSensor) (n : String) :
    (tempLoop ok pub cnt ss).2.2.any (isDiscForC .sys n) = false := by
  rw [List.any_eq_false]
  intro e he
  have hc := tempLoop_chan ok pub cnt ss e he
  simp [isDiscForC, hc]

theorem tempLoop_no_sys_succ (ok : ℕ → Bool) (pub : List String) (cnt : ℕ)
    (ss : List TemperatureSensor) (n : String) :
    (tempLoop ok pub cnt ss).2.2.any (isSuccDiscForC .sys n) = false :=
  any_false_of_imp (succ_imp_disc .sys n) (tempLoop_no_sys_disc ok pub cnt ss n)

theorem tempLoop_noDisc (ok : ℕ → Bool) (pub : List String) (cnt : ℕ)
    (ss : List TemperatureSensor) (n : String) (h : n ∈ pub) :
    (tempLoop ok pub cnt ss).2.2.any (isDiscForC .temp n) = false := by
  induction ss generalizing pub cnt with
  | nil => simp [tempLoop]
  | cons s rest ih =>
      by_cases hp : s.name ∈ pub
      · simp [tempLoop, hp, isDiscForC, isDiscFor, ih pub (cnt + 1) h]
      · have hne : s.name ≠ n := fun hc => hp (hc ▸ h)
        cases ho : ok cnt
        · simp [tempLoop, hp, ho, isDiscForC, isDiscFor, hne,
            ih pub (cnt + 2) h]
        · simp [tempLoop, hp, ho, isDiscForC, isDiscFor, hne,
            ih (s.name :: pub) (cnt + 3) (List.mem_cons_of_mem s.name h)]

theorem tempLoop_discOnce (ok : ℕ → Bool) (pub : List String) (cnt : ℕ)
    (ss : List TemperatureSensor) (n : String) :
    discOnceCB .temp n (tempLoop ok pub cnt ss).2.2 = true := by
  induction ss generalizing pub cnt with
  | nil => simp [tempLoop, discOnceCB]
  | cons s rest ih =>
      by_cases hp : s.name ∈ pub
      · simp [tempLoop, hp, discOnceCB, isSuccDiscForC, isSuccDiscFor,
          ih pub (cnt + 1)]
      · cases ho : ok cnt
        · simp [tempLoop, hp, ho, discOnceCB, isSuccDiscForC, isSuccDiscFor,
            ih pub (cnt + 2)]
        · by_cases hn : s.name = n
          · subst hn
            have hrec := tempLoop_noDisc ok (s.name :: pub) (cnt + 3) rest
              s.name (List.mem_cons_self s.name pub)
            have hnd : noDiscCB .temp s.name
                (tempLoop ok (s.name :: pub) (cnt + 3) rest).2.2 = true := by
              rw [noDiscCB_iff]
              exact hrec
            simp [tempLoop, hp, ho, discOnceCB, isSuccDiscForC, isSuccDiscFor,
              noDiscCB, isDiscForC, isDiscFor,
              ih (s.name :: pub) (cnt + 3)] at hnd ⊢
            exact hnd
          · simp [tempLoop, hp, ho, discOnceCB, isSuccDiscForC, isSuccDiscFor,
              hn, ih (s.name :: pub) (cnt + 3)]

theorem tempLoop_origin (ok : ℕ → Bool) (pub : List String) (cnt : ℕ)
    (ss : List TemperatureSensor) (n : String)
    (h : (tempLoop ok pub cnt ss).2.2.any (isDiscForC .temp n) = true) :
    n ∈ ss.map (·.name) := by
  induction ss generalizing pub cnt with
  | nil => simp [tempLoop] at h
  | cons s rest ih =>
      rw [List.any_eq_true] at h
      obtain ⟨e, he, hpe⟩ := h
      by_cases hp : s.name ∈ pub
      · simp only [tempLoop, if_pos hp, List.mem_cons] at he
        rcases he with rfl | he
        · simp [isDiscForC, isDiscFor] at hpe
        · have : n ∈ rest.map (·.name) :=
            ih pub (cnt + 1) (by rw [List.any_eq_true]; exact ⟨e, he, hpe⟩)
          simp [this]
      · cases ho : ok cnt
        · simp [tempLoop, hp, ho] at he
          rcases he with rfl | rfl | he
          · simp [isDiscForC, isDiscFor] at hpe
            simp [hpe]
          · simp [isDiscForC, isDiscFor] at hpe
          · have : n ∈ rest.map (·.name) :=
              ih pub (cnt + 2) (by rw [List.any_eq_true]; exact ⟨e, he, hpe⟩)
            simp [this]
        · simp [tempLoop, hp, ho] at he
          rcases he with rfl | rfl | rfl | he
          · simp [isDiscForC, isDiscFor] at hpe
            simp [hpe]
          · simp [isDiscForC, isDiscFor] at hpe
          · simp [isDiscForC, isDiscFor] at hpe
          · have : n ∈ rest.map (·.name) :=
              ih (s.name :: pub) (cnt + 3) (by rw [List.any_eq_true]; exact ⟨e, he, hpe⟩)
            simp [this]

theorem sysDiscLoop_noDisc (ok : ℕ → Bool) (pub : List String) (cnt : ℕ)
    (ss : List SystemSensor) (n : String) (h : n ∈ pub) :
    (sysDiscLoop ok pub cnt ss).2.2.any (isDiscForC .sys n) = false := by
  induction ss generalizing pub cnt with
  | nil => simp [sysDiscLoop]
  | cons s rest ih =>
      by_cases hp : s.name ∈ pub
      · simp [sysDiscLoop, hp, ih pub cnt h]
      · have hne : s.name ≠ n := fun hc => hp (hc ▸ h)
        cases ho : ok cnt
        · simp [sysDiscLoop, hp, ho, isDiscForC, isDiscFor, hne,
            ih pub (cnt + 1) h]
        · simp [sysDiscLoop, hp, ho, isDiscForC, isDiscFor, hne,
            ih (s.name :: pub) (cnt + 2) (List.mem_cons_of_mem s.name h)]

theorem sysDiscLoop_discOnce (ok : ℕ → Bool) (pub : List String) (cnt : ℕ)
    (ss : List SystemSensor) (n : String) :
    discOnceCB .sys n (sysDiscLoop ok pub cnt ss).2.2 = true := by
  induction ss generalizing pub cnt with
  | nil => simp [sysDiscLoop, discOnceCB]
  | cons s rest ih =>
      by_cases hp : s.name ∈ pub
      · simp [sysDiscLoop, hp, ih pub cnt]
      · cases ho : ok cnt
        · simp [sysDiscLoop, hp, ho, discOnceCB, isSuccDiscForC, isSuccDiscFor,
            ih pub (cnt + 1)]
        · by_cases hn : s.name = n
          · subst hn
            have hrec := sysDiscLoop_noDisc ok (s.name :: pub) (cnt + 2) rest
              s.name (List.mem_cons_self s.name pub)
            have hnd : noDiscCB .sys s.name
                (sysDiscLoop ok (s.name :: pub) (cnt + 2) rest).2.2 = true := by
              rw [noDiscCB_iff]
              exact hrec
            simp [sysDiscLoop, hp, ho, discOnceCB, isSuccDiscForC, isSuccDiscFor,
              noDiscCB, isDiscForC, isDiscFor,
              ih (s.name :: pub) (cnt + 2)] at hnd ⊢
            exact hnd
          · simp [sysDiscLoop, hp, ho, discOnceCB, isSuccDiscForC, isSuccDiscFor,
              hn, ih (s.name :: pub) (cnt + 2)]

theorem sysDiscLoop_mem (ok : ℕ → Bool) (pub : List String) (cnt : ℕ)
    (ss : List SystemSensor) (n : String) :
    n ∈ (sysDiscLoop ok pub cnt ss).1 ↔
      n ∈ pub ∨ (sysDiscLoop ok pub cnt ss).2.2.any (isSuccDiscForC .sys n) = true := by
  induction ss generalizing pub cnt with
  | nil => simp [sysDiscLoop]
  | cons s rest ih =>
      by_cases hp : s.name ∈ pub
      · simp [sysDiscLoop, hp, ih pub cnt]
      · cases ho : ok cnt
        · simp [sysDiscLoop, hp, ho, isSuccDiscForC, isSuccDiscFor, ih pub (cnt + 1)]
        · simp [sysDiscLoop, hp, ho, isSuccDiscForC, isSuccDiscFor,
            ih (s.name :: pub) (cnt + 2)]
          tauto

theorem sysDiscLoop_origin (ok : ℕ → Bool) (pub : List String) (cnt : ℕ)
    (ss : List SystemSensor) (n : String)
    (h : (sysDiscLoop ok pub cnt ss).2.2.any (isDiscForC .sys n) = true) :
    n ∈ ss.map (·.name) := by
  induction ss generalizing pub cnt with
  | nil => simp [sysDiscLoop] at h
  | cons s rest ih =>
      rw [List.any_eq_true] at h
      obtain ⟨e, he, hpe⟩ := h
      by_cases hp : s.name ∈ pub
      · rw [show (sysDiscLoop ok pub cnt (s :: rest)) = sysDiscLoop ok pub cnt rest
            from by simp [sysDiscLoop, hp]] at he
        have : n ∈ rest.map (·.name) :=
          ih pub cnt (by rw [List.any_eq_true]; exact ⟨e, he, hpe⟩)
        simp [this]
      · cases ho : ok cnt
        · simp [sysDiscLoop, hp, ho] at he
          rcases he with rfl | he
          · simp [isDiscForC, isDiscFor] at hpe
            simp [hpe]
          · have : n ∈ rest.map (·.name) :=
              ih pub (cnt + 1) (by rw [List.any_eq_true]; exact ⟨e, he, hpe⟩)
            simp [this]
        · simp [sysDiscLoop, hp, ho] at he
          rcases he with rfl | rfl | he
          · simp [isDiscForC, isDiscFor] at hpe
            simp [hpe]
          · simp [isDiscForC, isDiscFor] at hpe
          · have : n ∈ rest.map (·.name) :=
              ih (s.name :: pub) (cnt + 2) (by rw [List.any_eq_true]; exact ⟨e, he, hpe⟩)
            simp [this]

/-! ## Claim C2: discovery failure handling -/

theorem cycleStep_trace_succ (ok : ℕ → Bool) (st : LoopState) (env : CycleEnv)
    (n : String) :
    (cycleStep ok st env).2.any (isSuccDiscForC .temp n)
      = (tempLoop ok st.pubTemp st.pubCnt env.temps).2.2.any
          (isSuccDiscForC .temp n) := by
  by_cases hc : ((st.counter + 1) % u32mod) % 20 = 0
  · simp only [cycleStep]
    rw [if_pos hc]
    simp only [List.any_append, sysDiscLoop_no_temp_succ, sysStateLoop_no_succ,
      refreshAvail_no_succ, Bool.or_false]
  · simp only [cycleStep]
    rw [if_neg hc]
    simp only [List.any_append, sysDiscLoop_no_temp_succ, sysStateLoop_no_succ,
      Bool.or_false]

theorem cycleStep_pubTemp_eq (ok : ℕ → Bool) (st : LoopState) (env : CycleEnv) :
    (cycleStep ok st env).1.pubTemp
      = (tempLoop ok st.pubTemp st.pubCnt env.temps).1 := by
  by_cases hc : ((st.counter + 1) % u32mod) % 20 = 0
  · simp only [cycleStep]
    rw [if_pos hc]
  · simp only [cycleStep]
    rw [if_neg hc]

theorem cycleStep_pubTemp_mem (ok : ℕ → Bool) (st : LoopState) (env : CycleEnv)
    (n : String) :
    n ∈ (cycleStep ok st env).1.pubTemp ↔
      n ∈ st.pubTemp ∨
        (cycleStep ok st env).2.any (isSuccDiscForC .temp n) = true := by
  rw [cycleStep_pubTemp_eq, cycleStep_trace_succ]
  exact tempLoop_mem ok st.pubTemp st.pubCnt env.temps n

theorem cycleStep_attempts (ok : ℕ → Bool) (st : LoopState) (env : CycleEnv)
    (n : String) (h1 : n ∈ env.temps.map (·.name)) (h2 : n ∉ st.pubTemp) :
    (cycleStep ok st env).2.any (isDiscForC .temp n) = true := by
  have hT := tempLoop_attempts ok st.pubTemp st.pubCnt env.temps n h1 h2
  by_cases hc : ((st.counter + 1) % u32mod) % 20 = 0
  · simp only [cycleStep]
    rw [if_pos hc]
    simp only [List.any_append, hT, Bool.true_or]
  · simp only [cycleStep]
    rw [if_neg hc]
    simp only [List.any_append, hT, Bool.true_or]

theorem cycleStep_availDiscSeq (ok : ℕ → Bool) (st : LoopState) (env : CycleEnv)
    (n : String)
    (h : (cycleStep ok st env).2.any (isSuccDiscForC .temp n) = false) :
    (cycleStep ok st env).2.any (isDiscSeqAvailForC .temp n) = false := by
  rw [cycleStep_trace_succ] at h
  have hT2 : (tempLoop ok st.pubTemp st.pubCnt env.temps).2.2.any
      (isDiscSeqAvailForC .temp n) = false := by
    cases hx : (tempLoop ok st.pubTemp st.pubCnt env.temps).2.2.any
        (isDiscSeqAvailForC .temp n)
    · rfl
    · exact absurd (tempLoop_availDiscSeq ok _ _ _ n hx) (by simp [h])
  by_cases hc : ((st.counter + 1) % u32mod) % 20 = 0
  · simp only [cycleStep]
    rw [if_pos hc]
    simp only [List.any_append, hT2, sysDiscLoop_no_temp_discSeqAvail,
      sysStateLoop_no_discSeqAvail, refreshAvail_no_discSeqAvail, Bool.or_false]
  · simp only [cycleStep]
    rw [if_neg hc]
    simp only [List.any_append, hT2, sysDiscLoop_no_temp_discSeqAvail,
      sysStateLoop_no_discSeqAvail, Bool.or_false]

/-- Claim C2, counterexample: one temperature sensor t, cycle counter 19
before the cycle, discovery publish fails (oracle denies call 0): the
cycle's trace contains the failed discovery for t, and nevertheless an
availability(true) publish for t (from the refresh block, which runs over
all snapshot sensors on counter-divisible-by-20 cycles), refuting the
claim that availability(true) is not published for t in that cycle. -/
theorem claim_C2_counterexample :
    ((cycleStep (fun i => i != 0) ⟨[], [], 19, 0⟩
        ⟨[⟨"t", 50, "p"⟩], []⟩).2.any (isFailDiscForC .temp "t") = true) ∧
    ((cycleStep (fun i => i != 0) ⟨[], [], 19, 0⟩
        ⟨[⟨"t", 50, "p"⟩], []⟩).2.any (isAvailTrueFor "t") = true) := by
  constructor <;> decide

/-- Claim C2, amended: if the discovery publish for a temperature sensor
fails in a cycle (and no retry within the same cycle succeeds), the sensor
is not added to the discovered set, no availability(true) is published for
it by the discovery sequence in that cycle (the periodic refresh block may
still publish availability(true) for it when the incremented cycle counter
is divisible by 20), and if the sensor is present in the next cycle's
snapshot its discovery publish is attempted again. -/
theorem claim_C2 (ok : ℕ → Bool) (st : LoopState) (e1 e2 : CycleEnv)
    (n : String) (h0 : n ∉ st.pubTemp)
    (h1 : (cycleStep ok st e1).2.any (isFailDiscForC .temp n) = true)
    (h2 : (cycleStep ok st e1).2.any (isSuccDiscForC .temp n) = false) :
    n ∉ (cycleStep ok st e1).1.pubTemp ∧
    (cycleStep ok st e1).2.any (isDiscSeqAvailForC .temp n) = false ∧
    (n ∈ e2.temps.map (·.name) →
      (cycleStep ok (cycleStep ok st e1).1 e2).2.any (isDiscForC .temp n)
        = true) := by
  have hmem : n ∉ (cycleStep ok st e1).1.pubTemp := by
    rw [cycleStep_pubTemp_mem]
    simp [h0, h2]
  refine ⟨hmem, cycleStep_availDiscSeq ok st e1 n h2, fun hin => ?_⟩
  exact cycleStep_attempts ok (cycleStep ok st e1).1 e2 n hin hmem

/-- Witness for claim C2: the discovery for sensor t fails in cycle one
(oracle denies call 0) and t reappears in cycle two. -/
theorem claim_C2_witness :
    (("t" ∉ (⟨[], [], 0, 0⟩ : LoopState).pubTemp) ∧
     (cycleStep (fun i => i != 0) ⟨[], [], 0, 0⟩
        ⟨[⟨"t", 50, "p"⟩], []⟩).2.any (isFailDiscForC .temp "t") = true ∧
     (cycleStep (fun i => i != 0) ⟨[], [], 0, 0⟩
        ⟨[⟨"t", 50, "p"⟩], []⟩).2.any (isSuccDiscForC .temp "t") = false) ∧
    ("t" ∉ (cycleStep (fun i => i != 0) ⟨[], [], 0, 0⟩
        ⟨[⟨"t", 50, "p"⟩], []⟩).1.pubTemp ∧
     (cycleStep (fun i => i != 0) ⟨[], [], 0, 0⟩
        ⟨[⟨"t", 50, "p"⟩], []⟩).2.any (isDiscSeqAvailForC .temp "t") = false ∧
     ("t" ∈ ([(⟨"t", 50, "p"⟩ : TemperatureSensor)].map (·.name)) →
       (cycleStep (fun i => i != 0)
          (cycleStep (fun i => i != 0) ⟨[], [], 0, 0⟩
            ⟨[⟨"t", 50, "p"⟩], []⟩).1
          ⟨[⟨"t", 50, "p"⟩], []⟩).2.any (isDiscForC .temp "t") = true)) :=
  ⟨⟨by decide, by decide, by decide⟩,
   claim_C2 (fun i => i != 0) ⟨[], [], 0, 0⟩ ⟨[⟨"t", 50, "p"⟩], []⟩
     ⟨[⟨"t", 50, "p"⟩], []⟩ "t" (by decide) (by decide) (by decide)⟩

/-! ## Claim C1: discovery-once -/

theorem cycleStep_trace_succ_sys (ok : ℕ → Bool) (st : LoopState)
    (env : CycleEnv) (n : String) :
    (cycleStep ok st env).2.any (isSuccDiscForC .sys n)
      = (sysDiscLoop ok st.pubSys (tempLoop ok st.pubTemp st.pubCnt env.temps).2.1
          env.syss).2.2.any (isSuccDiscForC .sys n) := by
  by_cases hc : ((st.counter + 1) % u32mod) % 20 = 0
  · simp only [cycleStep]
    rw [if_pos hc]
    simp only [List.any_append, tempLoop_no_sys_succ, sysStateLoop_no_succ,
      refreshAvail_no_succ, Bool.or_false, Bool.false_or]
  · simp only [cycleStep]
    rw [if_neg hc]
    simp only [List.any_append, tempLoop_no_sys_succ, sysStateLoop_no_succ,
      Bool.or_false, Bool.false_or]

theorem cycleStep_pubSys_eq (ok : ℕ → Bool) (st : LoopState) (env : CycleEnv) :
    (cycleStep ok st env).1.pubSys
      = (sysDiscLoop ok st.pubSys (tempLoop ok st.pubTemp st.pubCnt env.temps).2.1
          env.syss).1 := by
  by_cases hc : ((st.counter + 1) % u32mod) % 20 = 0
  · simp only [cycleStep]
    rw [if_pos hc]
  · simp only [cycleStep]
    rw [if_neg hc]

theorem cycleStep_memC (ok : ℕ → Bool) (st : LoopState) (env : CycleEnv)
    (c : Chan) (n : String) :
    n ∈ pubOf c (cycleStep ok st env).1 ↔
      n ∈ pubOf c st ∨
        (cycleStep ok st env).2.any (isSuccDiscForC c n) = true := by
  cases c
  · exact cycleStep_pubTemp_mem ok st env n
  · show n ∈ (cycleStep ok st env).1.pubSys ↔ n ∈ st.pubSys ∨ _
    rw [cycleStep_pubSys_eq, cycleStep_trace_succ_sys]
    exact sysDiscLoop_mem ok st.pubSys _ env.syss n

theorem cycleStep_noDiscC (ok : ℕ → Bool) (st : LoopState) (env : CycleEnv)
    (c : Chan) (n : String) (h : n ∈ pubOf c st) :
    (cycleStep ok st env).2.any (isDiscForC c n) = false := by
  cases c
  · have hT := tempLoop_noDisc ok st.pubTemp st.pubCnt env.temps n h
    by_cases hc : ((st.counter + 1) % u32mod) % 20 = 0
    · simp only [cycleStep]
      rw [if_pos hc]
      simp only [List.any_append, hT, sysDiscLoop_no_temp_disc,
        sysStateLoop_no_disc, refreshAvail_no_disc, Bool.or_false]
    · simp only [cycleStep]
      rw [if_neg hc]
      simp only [List.any_append, hT, sysDiscLoop_no_temp_disc,
        sysStateLoop_no_disc, Bool.or_false]
  · have hD := sysDiscLoop_noDisc ok st.pubSys
      (tempLoop ok st.pubTemp st.pubCnt env.temps).2.1 env.syss n h
    by_cases hc : ((st.counter + 1) % u32mod) % 20 = 0
    · simp only [cycleStep]
      rw [if_pos hc]
      simp only [List.any_append, hD, tempLoop_no_sys_disc,
        sysStateLoop_no_disc, refreshAvail_no_disc, Bool.or_false, Bool.false_or]
    · simp only [cycleStep]
      rw [if_neg hc]
      simp only [List.any_append, hD, tempLoop_no_sys_disc,
        sysStateLoop_no_disc, Bool.or_false, Bool.false_or]

theorem cycleStep_trace_discT (ok : ℕ → Bool) (st : LoopState) (env : CycleEnv)
    (n : String) :
    (cycleStep ok st env).2.any (isDiscForC .temp n)
      = (tempLoop ok st.pubTemp st.pubCnt env.temps).2.2.any
          (isDiscForC .temp n) := by
  by_cases hc : ((st.counter + 1) % u32mod) % 20 = 0
  · simp only [cycleStep]
    rw [if_pos hc]
    simp only [List.any_append, sysDiscLoop_no_temp_disc, sysStateLoop_no_disc,
      refreshAvail_no_disc, Bool.or_false]
  · simp only [cycleStep]
    rw [if_neg hc]
    simp only [List.any_append, sysDiscLoop_no_temp_disc, sysStateLoop_no_disc,
      Bool.or_false]

theorem cycleStep_trace_discS (ok : ℕ → Bool) (st : LoopState) (env : CycleEnv)
    (n : String) :
    (cycleStep ok st env).2.any (isDiscForC .sys n)
      = (sysDiscLoop ok st.pubSys (tempLoop ok st.pubTemp st.pubCnt env.temps).2.1
          env.syss).2.2.any (isDiscForC .sys n) := by
  by_cases hc : ((st.counter + 1) % u32mod) % 20 = 0
  · simp only [cycleStep]
    rw [if_pos hc]
    simp only [List.any_append, tempLoop_no_sys_disc, sysStateLoop_no_disc,
      refreshAvail_no_disc, Bool.or_false, Bool.false_or]
  · simp only [cycleStep]
    rw [if_neg hc]
    simp only [List.any_append, tempLoop_no_sys_disc, sysStateLoop_no_disc,
      Bool.or_false, Bool.false_or]

theorem cycleStep_discOnceC (ok : ℕ → Bool) (st : LoopState) (env : CycleEnv)
    (c : Chan) (n : String) :
    discOnceCB c n (cycleStep ok st env).2 = true := by
  cases c
  · have hT := tempLoop_discOnce ok st.pubTemp st.pubCnt env.temps n
    by_cases hc : ((st.counter + 1) % u32mod) % 20 = 0
    · simp only [cycleStep]
      rw [if_pos hc]
      refine discOnce_append_full _ _ _ _ hT ?_ (fun _ => ?_) <;>
        · first
          | refine noDisc_discOnce _ _ _ ?_
          | skip
          rw [noDiscCB_iff]
          simp only [List.any_append, sysDiscLoop_no_temp_disc,
            sysStateLoop_no_disc, refreshAvail_no_disc, Bool.or_false]
    · simp only [cycleStep]
      rw [if_neg hc]
      refine discOnce_append_full _ _ _ _ hT ?_ (fun _ => ?_) <;>
        · first
          | refine noDisc_discOnce _ _ _ ?_
          | skip
          rw [noDiscCB_iff]
          simp only [List.any_append, sysDiscLoop_no_temp_disc,
            sysStateLoop_no_disc, Bool.or_false]
  · have hD := sysDiscLoop_discOnce ok st.pubSys
      (tempLoop ok st.pubTemp st.pubCnt env.temps).2.1 env.syss n
    by_cases hc : ((st.counter + 1) % u32mod) % 20 = 0
    · simp only [cycleStep]
      rw [if_pos hc]
      refine discOnce_prefix_noDisc _ _ _ _ ?_
        (discOnce_append_full _ _ _ _ hD ?_ (fun _ => ?_))
      · rw [noDiscCB_iff]
        exact tempLoop_no_sys_disc ok st.pubTemp st.pubCnt env.temps n
      all_goals
        first
        | refine noDisc_discOnce _ _ _ ?_
        | skip
        rw [noDiscCB_iff]
        simp only [List.any_append, sysStateLoop_no_disc, refreshAvail_no_disc,
          Bool.or_false]
    · simp only [cycleStep]
      rw [if_neg hc]
      refine discOnce_prefix_noDisc _ _ _ _ ?_
        (discOnce_append_full _ _ _ _ hD ?_ (fun _ => ?_))
      · rw [noDiscCB_iff]
        exact tempLoop_no_sys_disc ok st.pubTemp st.pubCnt env.temps n
      all_goals
        first
        | refine noDisc_discOnce _ _ _ ?_
        | skip
        rw [noDiscCB_iff]
        exact sysStateLoop_no_disc ok _ env.syss .sys n

theorem cycleStep_originT (ok : ℕ → Bool) (st : LoopState) (env : CycleEnv)
    (n : String)
    (h : (cycleStep ok st env).2.any (isDiscForC .temp n) = true) :
    n ∈ env.temps.map (·.name) := by
  rw [cycleStep_trace_discT] at h
  exact tempLoop_origin ok st.pubTemp st.pubCnt env.temps n h

theorem cycleStep_originS (ok : ℕ → Bool) (st : LoopState) (env : CycleEnv)
    (n : String)
    (h : (cycleStep ok st env).2.any (isDiscForC .sys n) = true) :
    n ∈ env.syss.map (·.name) := by
  rw [cycleStep_trace_discS] at h
  exact sysDiscLoop_origin ok st.pubSys _ env.syss n h

theorem run_noDisc (ok : ℕ → Bool) (st : LoopState) (envs : List CycleEnv)
    (c : Chan) (n : String) (h : n ∈ pubOf c st) :
    (run ok st envs).2.any (isDiscForC c n) = false := by
  induction envs generalizing st with
  | nil => simp [run]
  | cons env rest ih =>
      have h1 := cycleStep_noDiscC ok st env c n h
      have hmono : n ∈ pubOf c (cycleStep ok st env).1 :=
        (cycleStep_memC ok st env c n).mpr (Or.inl h)
      have h2 := ih (cycleStep ok st env).1 hmono
      simp only [run, List.any_append, h1, h2, Bool.or_false]

theorem run_memC (ok : ℕ → Bool) (st : LoopState) (envs : List CycleEnv)
    (c : Chan) (n : String) :
    n ∈ pubOf c (run ok st envs).1 ↔
      n ∈ pubOf c st ∨ (run ok st envs).2.any (isSuccDiscForC c n) = true := by
  induction envs generalizing st with
  | nil => simp [run]
  | cons env rest ih =>
      simp only [run]
      rw [ih, cycleStep_memC]
      simp [List.any_append, or_assoc]

theorem run_discOnceC (ok : ℕ → Bool) (st : LoopState) (envs : List CycleEnv)
    (c : Chan) (n : String) :
    discOnceCB c n (run ok st envs).2 = true := by
  induction envs generalizing st with
  | nil => simp [run, discOnceCB]
  | cons env rest ih =>
      simp only [run]
      refine discOnce_append_full _ _ _ _ (cycleStep_discOnceC ok st env c n)
        (ih (cycleStep ok st env).1) (fun hs => ?_)
      have hmem : n ∈ pubOf c (cycleStep ok st env).1 :=
        (cycleStep_memC ok st env c n).mpr (Or.inr hs)
      rw [noDiscCB_iff]
      exact run_noDisc ok (cycleStep ok st env).1 rest c n hmem

theorem run_originT (ok : ℕ → Bool) (st : LoopState) (envs : List CycleEnv)
    (n : String)
    (h : (run ok st envs).2.any (isDiscForC .temp n) = true) :
    n ∈ allTempNames envs := by
  induction envs generalizing st with
  | nil => simp [run] at h
  | cons env rest ih =>
      simp only [run, List.any_append, Bool.or_eq_true] at h
      rcases h with h | h
      · have := cycleStep_originT ok st env n h
        simp [allTempNames, this]
      · have := ih (cycleStep ok st env).1 h
        simp [allTempNames] at this ⊢
        exact Or.inr this

theorem run_originS (ok : ℕ → Bool) (st : LoopState) (envs : List CycleEnv)
    (n : String)
    (h : (run ok st envs).2.any (isDiscForC .sys n) = true) :
    n ∈ allSysNames envs := by
  induction envs generalizing st with
  | nil => simp [run] at h
  | cons env rest ih =>
      simp only [run, List.any_append, Bool.or_eq_true] at h
      rcases h with h | h
      · have := cycleStep_originS ok st env n h
        simp [allSysNames, this]
      · have := ih (cycleStep ok st env).1 h
        simp [allSysNames] at this ⊢
        exact Or.inr this

theorem shutdownEvs_noDisc (ok : ℕ → Bool) (st : LoopState)
    (fT : List TemperatureSensor) (fS : List SystemSensor) (c : Chan)
    (n : String) :
    (shutdownEvs ok st fT fS).any (isDiscForC c n) = false := by
  simp [shutdownEvs, List.any_append, shutdownAvail_no_disc]

theorem processRun_disc_eq (ok : ℕ → Bool) (st : LoopState)
    (envs : List CycleEnv) (fT : List TemperatureSensor)
    (fS : List SystemSensor) (c : Chan) (n : String) :
    (processRun ok st envs fT fS).any (isDiscForC c n)
      = (run ok st envs).2.any (isDiscForC c n) := by
  simp only [processRun, List.any_append, shutdownEvs_noDisc, Bool.or_false]

theorem processRun_succ_eq (ok : ℕ → Bool) (st : LoopState)
    (envs : List CycleEnv) (fT : List TemperatureSensor)
    (fS : List SystemSensor) (c : Chan) (n : String) :
    (processRun ok st envs fT fS).any (isSuccDiscForC c n)
      = (run ok st envs).2.any (isSuccDiscForC c n) := by
  have hsh : (shutdownEvs ok (run ok st envs).1 fT fS).any
      (isSuccDiscForC c n) = false :=
    any_false_of_imp (succ_imp_disc c n)
      (shutdownEvs_noDisc ok (run ok st envs).1 fT fS c n)
  simp only [processRun, List.any_append, hsh, Bool.or_false]

theorem processRun_discOnceC (ok : ℕ → Bool) (st : LoopState)
    (envs : List CycleEnv) (fT : List TemperatureSensor)
    (fS : List SystemSensor) (c : Chan) (n : String) :
    discOnceCB c n (processRun ok st envs fT fS) = true := by
  refine discOnce_append_full _ _ _ _ (run_discOnceC ok st envs c n)
    (noDisc_discOnce _ _ _ ?_) (fun _ => ?_) <;>
    · rw [noDiscCB_iff]
      exact shutdownEvs_noDisc ok (run ok st envs).1 fT fS c n

theorem succ_imp_disc_plain (n : String) (e : Ev)
    (h : isSuccDiscFor n e = true) : isDiscFor n e = true := by
  cases e with
  | mk ch nm k =>
      cases k with
      | disc b => cases b <;> simp_all [isSuccDiscFor, isDiscFor]
      | avail b s r => simp_all [isSuccDiscFor]
      | state b => simp_all [isSuccDiscFor]

theorem noDiscB_of_parts (n : String) (l : List Ev)
    (h1 : l.any (isDiscForC .temp n) = false)
    (h2 : l.any (isDiscForC .sys n) = false) :
    noDiscB n l = true := by
  rw [noDiscB, List.all_eq_true]
  intro e he
  rw [List.any_eq_false] at h1 h2
  cases hx : isDiscFor n e
  · simp
  · exfalso
    cases hch : e.chan
    · exact h1 e he (by simp [isDiscForC, hch, hx])
    · exact h2 e he (by simp [isDiscForC, hch, hx])

theorem discOnceB_of_chan_temp (n : String) (l : List Ev)
    (hsys : l.any (isDiscForC .sys n) = false)
    (ht : discOnceCB .temp n l = true) : discOnceB n l = true := by
  induction l with
  | nil => rfl
  | cons e tl ih =>
      rw [List.any_cons, Bool.or_eq_false_iff] at hsys
      rw [discOnceCB, Bool.and_eq_true] at ht
      rw [discOnceB, Bool.and_eq_true]
      refine ⟨?_, ih hsys.2 ht.2⟩
      cases hx : isSuccDiscFor n e
      · simp
      · have hdisc := succ_imp_disc_plain n e hx
        have hch : e.chan = .temp := by
          cases hcc : e.chan
          · rfl
          · exfalso
            have : isDiscForC .sys n e = true := by simp [isDiscForC, hcc, hdisc]
            rw [this] at hsys
            exact absurd hsys.1 (by simp)
        have hsuccC : isSuccDiscForC .temp n e = true := by
          simp [isSuccDiscForC, hch, hx]
        have h0 := ht.1
        rw [hsuccC] at h0
        simp only [Bool.not_true, Bool.false_or] at h0
        have hnd := noDiscB_of_parts n tl ((noDiscCB_iff _ _ _).mp h0) hsys.2
        simp [hnd]

theorem discOnceB_of_chan_sys (n : String) (l : List Ev)
    (htmp : l.any (isDiscForC .temp n) = false)
    (hs : discOnceCB .sys n l = true) : discOnceB n l = true := by
  induction l with
  | nil => rfl
  | cons e tl ih =>
      rw [List.any_cons, Bool.or_eq_false_iff] at htmp
      rw [discOnceCB, Bool.and_eq_true] at hs
      rw [discOnceB, Bool.and_eq_true]
      refine ⟨?_, ih htmp.2 hs.2⟩
      cases hx : isSuccDiscFor n e
      · simp
      · have hdisc := succ_imp_disc_plain n e hx
        have hch : e.chan = .sys := by
          cases hcc : e.chan
          · exfalso
            have : isDiscForC .temp n e = true := by simp [isDiscForC, hcc, hdisc]
            rw [this] at htmp
            exact absurd htmp.1 (by simp)
          · rfl
        have hsuccC : isSuccDiscForC .sys n e = true := by
          simp [isSuccDiscForC, hch, hx]
        have h0 := hs.1
        rw [hsuccC] at h0
        simp only [Bool.not_true, Bool.false_or] at h0
        have hnd := noDiscB_of_parts n tl htmp.2 ((noDiscCB_iff _ _ _).mp h0)
        simp [hnd]

theorem succ_chan (n : String) (e : Ev) (h : isSuccDiscFor n e = true) :
    isSuccDiscForC .temp n e = true ∨ isSuccDiscForC .sys n e = true := by
  cases hch : e.chan
  · exact Or.inl (by simp [isSuccDiscForC, hch, h])
  · exact Or.inr (by simp [isSuccDiscForC, hch, h])

theorem crossDisjoint_not_temp (envs : List CycleEnv) (n : String)
    (h : crossDisjointB envs = true) (hs : n ∈ allSysNames envs) :
    n ∉ allTempNames envs := by
  intro ht
  rw [crossDisjointB, List.all_eq_true] at h
  have h2 := h n ht
  have h3 : (allSysNames envs).any (fun m => m == n) = true := by
    rw [List.any_eq_true]
    exact ⟨n, hs, by simp⟩
  rw [h3] at h2
  exact absurd h2 (by simp)

/-- Claim C1: for every sensor identity, across a single run (any number of
cycles followed by shutdown) starting from the initial state, once a
discovery publish for the identity succeeds no later discovery publish for
it occurs in the trace (so the discovery payload is sent at most once
unless an earlier attempt failed), and a successful discovery leaves the
identity in one of the discovered sets at the end of the cycle loop.  The
hypothesis is the spec's name-uniqueness invariant: no identity names both
a temperature and a system sensor during the run. -/
theorem claim_C1 (ok : ℕ → Bool) (envs : List CycleEnv)
    (fT : List TemperatureSensor) (fS : List SystemSensor) (n : String)
    (h : crossDisjointB envs = true) :
    discOnceB n (processRun ok initState envs fT fS) = true ∧
    ((processRun ok initState envs fT fS).any (isSuccDiscFor n) = true →
      n ∈ (run ok initState envs).1.pubTemp ∨
        n ∈ (run ok initState envs).1.pubSys) := by
  constructor
  · cases hsy : (processRun ok initState envs fT fS).any (isDiscForC .sys n)
    · exact discOnceB_of_chan_temp n _ hsy
        (processRun_discOnceC ok initState envs fT fS .temp n)
    · have hnsys : n ∈ allSysNames envs := by
        rw [processRun_disc_eq] at hsy
        exact run_originS ok initState envs n hsy
      have hnt : n ∉ allTempNames envs := crossDisjoint_not_temp envs n h hnsys
      have htmp : (processRun ok initState envs fT fS).any
          (isDiscForC .temp n) = false := by
        cases hx : (processRun ok initState envs fT fS).any (isDiscForC .temp n)
        · rfl
        · exfalso
          rw [processRun_disc_eq] at hx
          exact hnt (run_originT ok initState envs n hx)
      exact discOnceB_of_chan_sys n _ htmp
        (processRun_discOnceC ok initState envs fT fS .sys n)
  · intro hsucc
    rw [List.any_eq_true] at hsucc
    obtain ⟨e, he, hpe⟩ := hsucc
    rcases succ_chan n e hpe with hc | hc
    · left
      have hany : (processRun ok initState envs fT fS).any
          (isSuccDiscForC .temp n) = true := by
        rw [List.any_eq_true]
        exact ⟨e, he, hc⟩
      rw [processRun_succ_eq] at hany
      have := (run_memC ok initState envs .temp n).mpr (Or.inr hany)
      simpa [pubOf, initState] using this
    · right
      have hany : (processRun ok initState envs fT fS).any
          (isSuccDiscForC .sys n) = true := by
        rw [List.any_eq_true]
        exact ⟨e, he, hc⟩
      rw [processRun_succ_eq] at hany
      have := (run_memC ok initState envs .sys n).mpr (Or.inr hany)
      simpa [pubOf, initState] using this

/-- Witness for claim C1: a two-cycle run over one temperature and one
system sensor with all publishes succeeding. -/
theorem claim_C1_witness :
    crossDisjointB [⟨[⟨"t", 50, "p"⟩], [⟨"s", 1, "%", .CpuUsage⟩]⟩,
        ⟨[⟨"t", 50, "p"⟩], [⟨"s", 1, "%", .CpuUsage⟩]⟩] = true ∧
    (discOnceB "t" (processRun (fun _ => true) initState
        [⟨[⟨"t", 50, "p"⟩], [⟨"s", 1, "%", .CpuUsage⟩]⟩,
         ⟨[⟨"t", 50, "p"⟩], [⟨"s", 1, "%", .CpuUsage⟩]⟩] [] []) = true ∧
     ((processRun (fun _ => true) initState
        [⟨[⟨"t", 50, "p"⟩], [⟨"s", 1, "%", .CpuUsage⟩]⟩,
         ⟨[⟨"t", 50, "p"⟩], [⟨"s", 1, "%", .CpuUsage⟩]⟩] [] []).any
          (isSuccDiscFor "t") = true →
       "t" ∈ (run (fun _ => true) initState
          [⟨[⟨"t", 50, "p"⟩], [⟨"s", 1, "%", .CpuUsage⟩]⟩,
           ⟨[⟨"t", 50, "p"⟩], [⟨"s", 1, "%", .CpuUsage⟩]⟩]).1.pubTemp ∨
       "t" ∈ (run (fun _ => true) initState
          [⟨[⟨"t", 50, "p"⟩], [⟨"s", 1, "%", .CpuUsage⟩]⟩,
           ⟨[⟨"t", 50, "p"⟩], [⟨"s", 1, "%", .CpuUsage⟩]⟩]).1.pubSys)) :=
  ⟨by decide,
   claim_C1 (fun _ => true)
     [⟨[⟨"t", 50, "p"⟩], [⟨"s", 1, "%", .CpuUsage⟩]⟩,
      ⟨[⟨"t", 50, "p"⟩], [⟨"s", 1, "%", .CpuUsage⟩]⟩] [] [] "t" (by decide)⟩

/-! ## Claims C5 to C10: the payload factory -/

/-- Claim C5, counterexample: for the scenario sensor k10temp_1 at 42.5 on
device desk, the state payload body is not the JSON document with key
"value" claimed by the spec (the code keys temperature state bodies as
"temperature"). -/
theorem claim_C5_counterexample :
    (temperature_state ⟨"k10temp_1", 85/2, "/sys/class/hwmon/hwmon0/temp1_input"⟩
        "desk").body
      ≠ .jsonB (Json.mkObj [("value", .num (85/2))]) := by
  simp [temperature_state, Json.mkObj, JsonFields.ofList]

/-- Claim C5, amended: for a single temperature sensor named k10temp_1 on
device desk with value 42.5, the discovery topic is
homeassistant/sensor/orbiq_desk/k10temp_1/config, the discovery body
carries device_class "temperature" and friendly name "CPU Temperature",
and the state payload body is the JSON document with key "temperature"
(not "value") and value 42.5. -/
theorem claim_C5 :
    (discovery_config ⟨"k10temp_1", 85/2, "/sys/class/hwmon/hwmon0/temp1_input"⟩
          "desk" (DeviceInfo.from_config
            ⟨"desk", "OrbIQ System Monitor", "OrbIQ", none, none⟩)).topic
        = "homeassistant/sensor/orbiq_desk/k10temp_1/config" ∧
    (discovery_config ⟨"k10temp_1", 85/2, "/sys/class/hwmon/hwmon0/temp1_input"⟩
          "desk" (DeviceInfo.from_config
            ⟨"desk", "OrbIQ System Monitor", "OrbIQ", none, none⟩)).bodyLookup
          "device_class"
        = some (.str "temperature") ∧
    (discovery_config ⟨"k10temp_1", 85/2, "/sys/class/hwmon/hwmon0/temp1_input"⟩
          "desk" (DeviceInfo.from_config
            ⟨"desk", "OrbIQ System Monitor", "OrbIQ", none, none⟩)).bodyLookup
          "name"
        = some (.str "CPU Temperature") ∧
    (temperature_state ⟨"k10temp_1", 85/2, "/sys/class/hwmon/hwmon0/temp1_input"⟩
          "desk").body
        = .jsonB (Json.mkObj [("temperature", .num (85/2))]) :=
  ⟨by decide, by decide, by decide, rfl⟩

/-- Claim C6: topic construction is a deterministic function of device and
sensor identity, and injective per device: each factory topic is the
single topic format applied to (sensor name, device name, sub-topic), and
for two distinct sensor names under the same device all nine pairs of
discovery/state/availability topics differ. -/
theorem claim_C6 :
    (∀ (s : TemperatureSensor) (d : String) (i : DeviceInfo) (b : Bool),
        (discovery_config s d i).topic = topic ⟨s.name, d, "config"⟩ ∧
        (temperature_state s d).topic = topic ⟨s.name, d, "state"⟩ ∧
        (sensor_availability s d b).topic = topic ⟨s.name, d, "availability"⟩) ∧
    (∀ (s : SystemSensor) (d : String) (i : DeviceInfo) (b : Bool),
        (publish_system_discovery_config s d i).topic = topic ⟨s.name, d, "config"⟩ ∧
        (system_state s d).topic = topic ⟨s.name, d, "state"⟩ ∧
        (publish_system_sensor_availability s d b).topic
          = topic ⟨s.name, d, "availability"⟩) ∧
    (∀ (d n1 n2 : String), n1 ≠ n2 →
        ∀ sub1 ∈ ["config", "state", "availability"],
        ∀ sub2 ∈ ["config", "state", "availability"],
          topic ⟨n1, d, sub1⟩ ≠ topic ⟨n2, d, sub2⟩) := by
  refine ⟨fun s d i b => ⟨rfl, rfl, rfl⟩, fun s d i b => ⟨rfl, rfl, rfl⟩, ?_⟩
  intro d n1 n2 h sub1 hs1 sub2 hs2
  fin_cases hs1 <;> fin_cases hs2
  · exact topic_ne_same d n1 n2 "config" h
  · exact topic_ne_cross d n1 n2 "config" "state" (by decide)
  · exact topic_ne_cross d n1 n2 "config" "availability" (by decide)
  · exact topic_ne_cross d n1 n2 "state" "config" (by decide)
  · exact topic_ne_same d n1 n2 "state" h
  · exact topic_ne_cross d n1 n2 "state" "availability" (by decide)
  · exact topic_ne_cross d n1 n2 "availability" "config" (by decide)
  · exact topic_ne_cross d n1 n2 "availability" "state" (by decide)
  · exact topic_ne_same d n1 n2 "availability" h

/-- Witness for claim C6 at the concrete names a and b under device d. -/
theorem claim_C6_witness :
    topic ⟨"a", "d", "config"⟩ ≠ topic ⟨"b", "d", "state"⟩ :=
  claim_C6.2.2 "d" "a" "b" (by decide) "config" (by simp) "state" (by simp)

/-- Claim C7, counterexample: a raw CPU usage reading of 42.37 is published
unrounded; the state body carries 42.37, not the 42.4 the spec claims. -/
theorem claim_C7_counterexample :
    (system_state (cpuUsageSensor (4237/100)) "desk").body
        = .jsonB (Json.mkObj [("value", .num (4237/100))]) ∧
    (system_state (cpuUsageSensor (4237/100)) "desk").body
        ≠ .jsonB (Json.mkObj [("value", .num (212/5))]) := by
  refine ⟨rfl, ?_⟩
  simp [system_state, cpuUsageSensor, Json.mkObj, JsonFields.ofList]
  norm_num

/-- Claim C7, amended: no rounding is applied anywhere: a raw CPU usage
reading is published exactly as read, and a raw used-memory reading of
8589934592 bytes yields exactly 8 GB in its state payload. -/
theorem claim_C7 (q : ℚ) (d : String) :
    (system_state (cpuUsageSensor q) d).body
        = .jsonB (Json.mkObj [("value", .num q)]) ∧
    (memoryUsedSensor 8589934592).value = 8 ∧
    (system_state (memoryUsedSensor 8589934592) d).body
        = .jsonB (Json.mkObj [("value", .num 8)]) := by
  have h : (memoryUsedSensor 8589934592).value = 8 := by
    norm_num [memoryUsedSensor]
  exact ⟨rfl, h, by simp [system_state, Json.mkObj, JsonFields.ofList, h]⟩

/-- Claim C8: the discovery-payload construction functions are
deterministic: two calls on identical inputs give an identical topic
string and identical serialized body bytes, for the temperature and the
system variant alike. -/
theorem claim_C8 :
    (∀ (s1 s2 : TemperatureSensor) (d1 d2 : String) (i1 i2 : DeviceInfo),
        s1 = s2 → d1 = d2 → i1 = i2 →
        (discovery_config s1 d1 i1).topic = (discovery_config s2 d2 i2).topic ∧
        (discovery_config s1 d1 i1).body.serialize
          = (discovery_config s2 d2 i2).body.serialize) ∧
    (∀ (s1 s2 : SystemSensor) (d1 d2 : String) (i1 i2 : DeviceInfo),
        s1 = s2 → d1 = d2 → i1 = i2 →
        (publish_system_discovery_config s1 d1 i1).topic
          = (publish_system_discovery_config s2 d2 i2).topic ∧
        (publish_system_discovery_config s1 d1 i1).body.serialize
          = (publish_system_discovery_config s2 d2 i2).body.serialize) := by
  constructor
  · intro s1 s2 d1 d2 i1 i2 hs hd hi
    subst hs; subst hd; subst hi
    exact ⟨rfl, rfl⟩
  · intro s1 s2 d1 d2 i1 i2 hs hd hi
    subst hs; subst hd; subst hi
    exact ⟨rfl, rfl⟩

/-- Witness for claim C8 at a concrete temperature sensor. -/
theorem claim_C8_witness :
    (discovery_config ⟨"k10temp_1", 85/2, "p"⟩ "desk"
          ⟨["orbiq_desk"], "desk", "OrbIQ System Monitor", "OrbIQ",
            some "0.1.0", some "1.0"⟩).topic
        = (discovery_config ⟨"k10temp_1", 85/2, "p"⟩ "desk"
            ⟨["orbiq_desk"], "desk", "OrbIQ System Monitor", "OrbIQ",
              some "0.1.0", some "1.0"⟩).topic ∧
    (discovery_config ⟨"k10temp_1", 85/2, "p"⟩ "desk"
          ⟨["orbiq_desk"], "desk", "OrbIQ System Monitor", "OrbIQ",
            some "0.1.0", some "1.0"⟩).body.serialize
        = (discovery_config ⟨"k10temp_1", 85/2, "p"⟩ "desk"
            ⟨["orbiq_desk"], "desk", "OrbIQ System Monitor", "OrbIQ",
              some "0.1.0", some "1.0"⟩).body.serialize :=
  claim_C8.1 ⟨"k10temp_1", 85/2, "p"⟩ ⟨"k10temp_1", 85/2, "p"⟩ "desk" "desk"
    ⟨["orbiq_desk"], "desk", "OrbIQ System Monitor", "OrbIQ",
      some "0.1.0", some "1.0"⟩
    ⟨["orbiq_desk"], "desk", "OrbIQ System Monitor", "OrbIQ",
      some "0.1.0", some "1.0"⟩ rfl rfl rfl

/-- Claim C9, counterexample: a temperature sensor's discovery payload body
carries no icon field at all, against the claim that every discovery
payload includes a kind-specific icon hint. -/
theorem claim_C9_counterexample :
    (discovery_config ⟨"k10temp_1", 85/2, "/sys/class/hwmon/hwmon0/temp1_input"⟩
          "desk" (DeviceInfo.from_config
            ⟨"desk", "OrbIQ System Monitor", "OrbIQ", none, none⟩)).bodyLookup
        "icon" = none := by decide

/-- Claim C9, amended: system-sensor discovery bodies carry device_class
"data_size" exactly for the byte-size kinds and no device_class for the
percentage kinds, plus a kind-specific icon, with retain true; temperature
discovery bodies carry device_class "temperature", no icon field, and
retain true.  There is no Fan sensor kind in the compiled system-sensor
model. -/
theorem claim_C9 :
    (∀ (s : SystemSensor) (d : String) (i : DeviceInfo),
        (publish_system_discovery_config s d i).bodyLookup "device_class"
            = (match s.sensor_type with
               | .CpuUsage | .MemoryUsage | .DiskUsage => none
               | .MemoryUsed | .MemoryTotal | .DiskUsed | .DiskTotal =>
                   some (.str "data_size")) ∧
        (publish_system_discovery_config s d i).bodyLookup "icon"
            = some (.str s.sensor_type.icon) ∧
        (publish_system_discovery_config s d i).retain = true) ∧
    (∀ (s : TemperatureSensor) (d : String) (i : DeviceInfo),
        (discovery_config s d i).bodyLookup "device_class"
            = some (.str "temperature") ∧
        (discovery_config s d i).bodyLookup "icon" = none ∧
        (discovery_config s d i).retain = true) := by
  constructor
  · intro s d i
    refine ⟨?_, ?_, rfl⟩ <;>
      cases h : s.sensor_type <;>
        simp [publish_system_discovery_config, Json.mkObj, JsonFields.ofList,
          MqttPayload.bodyLookup, Json.lookup, JsonFields.lookup, h]
  · intro s d i
    refine ⟨?_, ?_, rfl⟩ <;>
      simp [discovery_config, Json.mkObj, JsonFields.ofList,
        MqttPayload.bodyLookup, Json.lookup, JsonFields.lookup]

/-- Claim C10: for every loaded or defaulted configuration the effective
MQTT client id is "orbiq-" followed by the device name, and the device
block of every discovery payload has model "OrbIQ System Monitor",
manufacturer "OrbIQ" and present sw_version and hw_version, regardless of
what the configuration file supplies. -/
theorem claim_C10 (r : Option ParsedToml) :
    (load_with_fallback r).mqtt.client_id
        = "orbiq-" ++ (load_with_fallback r).device.name ∧
    (DeviceInfo.from_config (load_with_fallback r).device).model
        = "OrbIQ System Monitor" ∧
    (DeviceInfo.from_config (load_with_fallback r).device).manufacturer
        = "OrbIQ" ∧
    (DeviceInfo.from_config (load_with_fallback r).device).sw_version.isSome
        = true ∧
    (DeviceInfo.from_config (load_with_fallback r).device).hw_version.isSome
        = true := by
  cases r with
  | none => exact ⟨rfl, rfl, rfl, rfl, rfl⟩
  | some p =>
      refine ⟨rfl, rfl, rfl, ?_, ?_⟩
      · cases h : p.sw_version <;>
          simp [load_with_fallback, load_from_file, ParsedToml.toConfig,
            DeviceInfo.from_config, h]
      · cases h : p.hw_version <;>
          simp [load_with_fallback, load_from_file, ParsedToml.toConfig,
            DeviceInfo.from_config, h]

end Orbiq
